import Mathlib

/-!
Verification development for the Smart Study Assistant content pipeline.

The JavaScript sources (backend/src/services/aiService.js, mathService.js,
wikipediaService.js and backend/src/controllers/studyController.js) are
shallowly embedded below.  Strings are modelled by Lean strings (the inputs
exercised here are ASCII, where JavaScript UTF-16 code units, Lean code
points and JavaScript string lengths agree).  JavaScript numbers are
modelled by exact rationals extended with Infinity, -Infinity and NaN; the
arithmetic appearing in the verified statements is exact in IEEE doubles,
so the rational model agrees with the JavaScript engine there.  External
effects (the math.js HTTP API, the AI providers, JSON parsing of free-form
provider text, Wikipedia HTTP calls, Math.random) are supplied through
explicit environment records, so every embedded function is a pure total
function of its inputs and its environment.
-/

set_option maxRecDepth 10000

namespace StudyAssistant

/-! ## JavaScript string primitives -/

/-- Whitespace class of JavaScript regular expressions, restricted to the
ASCII range (the verified inputs are ASCII). -/
def isJsWs (c : Char) : Bool :=
  c = ' ' || c = '\t' || c = '\n' || c = '\x0d' || c = '\x0b' || c = '\x0c'

/-- Model of JavaScript String.prototype.trim on ASCII input. -/
def jsTrim (s : String) : String :=
  ⟨((s.data.dropWhile isJsWs).reverse.dropWhile isJsWs).reverse⟩

/-- ASCII lower-casing of one character (String.prototype.toLowerCase on the
ASCII range). -/
def asciiLower (c : Char) : Char :=
  if 'A' ≤ c && c ≤ 'Z' then Char.ofNat (c.toNat + 32) else c

/-- ASCII upper-casing of one character (String.prototype.toUpperCase on the
ASCII range). -/
def asciiUpper (c : Char) : Char :=
  if 'a' ≤ c && c ≤ 'z' then Char.ofNat (c.toNat - 32) else c

/-- Model of String.prototype.toLowerCase on ASCII input. -/
def strLower (s : String) : String := ⟨s.data.map asciiLower⟩

/-- Model of String.prototype.includes: the needle occurs contiguously in
the haystack. -/
def jsIncludesB (hay needle : String) : Bool :=
  decide (needle.data <:+: hay.data)

/-- Boolean test that a string starts with the given literal. -/
def startsWithB (s p : String) : Bool :=
  decide (p.data <+: s.data)

/-- Model of the global replacement of every whitespace run by nothing,
that is of s.replace with pattern backslash-s-plus and empty replacement. -/
def removeWs (s : String) : String := ⟨s.data.filter (fun c => !isJsWs c)⟩

/-- Auxiliary state machine behind the replacement of whitespace runs by
one fixed character: the flag records whether the previous character was
whitespace. -/
def collapseWsAux (repl : Char) (prevWs : Bool) : List Char → List Char
  | [] => []
  | c :: cs =>
    if isJsWs c then
      if prevWs then collapseWsAux repl true cs
      else repl :: collapseWsAux repl true cs
    else c :: collapseWsAux repl false cs

/-- Model of the global replacement of every whitespace run by one space. -/
def collapseWs (s : String) : String := ⟨collapseWsAux ' ' false s.data⟩

/-- Model of the global replacement of every whitespace run by one
underscore, as in the Wikipedia URL construction. -/
def underscoreWs (s : String) : String := ⟨collapseWsAux '_' false s.data⟩

/-- Model of JavaScript String.prototype.substring with the clamping and
argument-swapping behaviour of the host function. -/
def jsSubstring (s : String) (a b : Nat) : String :=
  let len := s.data.length
  let a' := min a len
  let b' := min b len
  ⟨(s.data.drop (min a' b')).take (max a' b' - min a' b')⟩

/-- Sentence punctuation class used by the pipeline, the characters dot,
exclamation mark and question mark. -/
def isPunctSent (c : Char) : Bool := c = '.' || c = '!' || c = '?'

mutual
/-- Segment-reading state of the split on runs of sentence punctuation. -/
def splitRunsSeg (cur : List Char) : List Char → List String
  | [] => [⟨cur.reverse⟩]
  | c :: cs =>
    if isPunctSent c then ⟨cur.reverse⟩ :: splitRunsSep cs
    else splitRunsSeg (c :: cur) cs

/-- Separator-consuming state of the split on runs of sentence
punctuation. -/
def splitRunsSep : List Char → List String
  | [] => [""]
  | c :: cs => if isPunctSent c then splitRunsSep cs else splitRunsSeg [c] cs
end

/-- Model of s.split on the pattern matching one or more sentence
punctuation characters, keeping boundary empty segments exactly as
JavaScript does. -/
def splitPunctRuns (s : String) : List String := splitRunsSeg [] s.data

/-- Model of s.split on the single-character sentence punctuation class
(no plus quantifier): every punctuation character is a separator. -/
def splitPunctSingleAux (cur : List Char) : List Char → List String
  | [] => [⟨cur.reverse⟩]
  | c :: cs =>
    if isPunctSent c then ⟨cur.reverse⟩ :: splitPunctSingleAux [] cs
    else splitPunctSingleAux (c :: cur) cs

/-- Model of s.split on the single-character sentence punctuation class. -/
def splitPunctSingle (s : String) : List String := splitPunctSingleAux [] s.data

/-- Auxiliary function of splitWs collecting maximal non-whitespace runs;
the accumulator holds the reversed current run. -/
def splitWsAux : List Char → List Char → List String
  | [], [] => []
  | [], acc => [⟨acc.reverse⟩]
  | c :: cs, acc =>
    if isJsWs c then
      match acc with
      | [] => splitWsAux cs []
      | _ => ⟨acc.reverse⟩ :: splitWsAux cs []
    else splitWsAux cs (c :: acc)

/-- Splitting into maximal non-whitespace runs: the composition of the
JavaScript split on whitespace runs with the filter keeping non-empty
words, as performed by extractMainTopic. -/
def splitWs (s : String) : List String := splitWsAux s.data []

mutual
/-- Segment state of the JavaScript split on whitespace runs that keeps
boundary empty fields. -/
def splitWsKeepSeg (cur : List Char) : List Char → List String
  | [] => [⟨cur.reverse⟩]
  | c :: cs =>
    if isJsWs c then ⟨cur.reverse⟩ :: splitWsKeepSep cs
    else splitWsKeepSeg (c :: cur) cs

/-- Separator state of the JavaScript split on whitespace runs that keeps
boundary empty fields. -/
def splitWsKeepSep : List Char → List String
  | [] => [""]
  | c :: cs => if isJsWs c then splitWsKeepSep cs else splitWsKeepSeg [c] cs
end

/-- Model of s.split on the pattern of one-or-more whitespace, with the
leading and trailing empty fields JavaScript produces. -/
def splitWsKeep (s : String) : List String := splitWsKeepSeg [] s.data

/-- Arithmetic operator characters, the class used by the source in split
and match patterns. -/
def isOpChar (c : Char) : Bool := c = '+' || c = '-' || c = '*' || c = '/'

/-- Model of s.split on the single-character arithmetic-operator class. -/
def splitOpsAux (cur : List Char) : List Char → List String
  | [] => [⟨cur.reverse⟩]
  | c :: cs =>
    if isOpChar c then ⟨cur.reverse⟩ :: splitOpsAux [] cs
    else splitOpsAux (c :: cur) cs

/-- Model of s.split on the single-character arithmetic-operator class. -/
def splitOps (s : String) : List String := splitOpsAux [] s.data

/-- Decimal representation of a natural number. -/
def natToStr (n : Nat) : String := Nat.repr n

/-- Decimal representation of an integer, as JavaScript prints safe
integers. -/
def intToStr (i : Int) : String :=
  if i < 0 then "-" ++ natToStr i.natAbs else natToStr i.natAbs

/-! ## JavaScript numbers

JavaScript numbers are modelled by exact rationals extended with the three
IEEE special values.  All computations proved about below are exactly
representable in IEEE doubles, where this model and the engine agree; the
model is only approximate on values a double would round.  The rationals
are carried by a small canonical-fraction type whose operations reduce
inside the kernel (the Mathlib rational type does not). -/

/-- Fuel-driven Euclidean greatest common divisor; the fuel b + 1 always
suffices. -/
def gcdFuel : Nat → Nat → Nat → Nat
  | 0, a, _ => a
  | fuel + 1, a, b => if a = 0 then b else gcdFuel fuel (b % a) a

/-- Canonical fraction: a numerator and a positive denominator with no
common factor, maintained by the smart constructors below. -/
structure QJ where
  num : Int
  den : Nat
  deriving DecidableEq, Repr

namespace QJ

/-- Canonicalising constructor from a numerator and a non-zero natural
denominator. -/
def mkQn (n : Int) (d : Nat) : QJ :=
  let g := gcdFuel (n.natAbs + 1) n.natAbs d
  if g = 0 then ⟨0, 1⟩ else ⟨n / g, d / g⟩

/-- Canonicalising constructor from an integer numerator and a non-zero
integer denominator. -/
def mkQ (n d : Int) : QJ :=
  if d < 0 then mkQn (-n) (-d).toNat else mkQn n d.toNat

/-- Embedding of a natural number. -/
def ofN (n : Nat) : QJ := ⟨n, 1⟩

/-- Zero. -/
def zero : QJ := ⟨0, 1⟩

/-- Addition. -/
def add (a b : QJ) : QJ := mkQn (a.num * b.den + b.num * a.den) (a.den * b.den)

/-- Negation. -/
def neg (a : QJ) : QJ := ⟨-a.num, a.den⟩

/-- Subtraction. -/
def sub (a b : QJ) : QJ := add a (neg b)

/-- Multiplication. -/
def mul (a b : QJ) : QJ := mkQn (a.num * b.num) (a.den * b.den)

/-- Division; callers guard the zero divisor. -/
def div (a b : QJ) : QJ := mkQ (a.num * b.den) (b.num * a.den)

/-- Sign tests; the denominator is positive in canonical form. -/
def isPos (a : QJ) : Bool := 0 < a.num

/-- Negativity test. -/
def isNeg (a : QJ) : Bool := a.num < 0

/-- Zero test. -/
def isZero (a : QJ) : Bool := a.num = 0

/-- Absolute value. -/
def abs (a : QJ) : QJ := ⟨a.num.natAbs, a.den⟩

/-- Natural power. -/
def powN (a : QJ) : Nat → QJ
  | 0 => ⟨1, 1⟩
  | n + 1 => mul a (powN a n)

/-- Multiplicative inverse; callers guard zero. -/
def inv (a : QJ) : QJ := mkQ a.den a.num

end QJ

/-- Model of a JavaScript number: an exact rational or one of the IEEE
special values.  The distinction between positive and negative zero is not
modelled. -/
inductive JsNum where
  | fin (q : QJ)
  | inf
  | ninf
  | nan
  deriving DecidableEq, Repr

namespace JsNum

/-- IEEE addition on the model. -/
def add : JsNum → JsNum → JsNum
  | fin a, fin b => fin (a.add b)
  | fin _, inf => inf
  | fin _, ninf => ninf
  | inf, fin _ => inf
  | ninf, fin _ => ninf
  | inf, inf => inf
  | ninf, ninf => ninf
  | inf, ninf => nan
  | ninf, inf => nan
  | _, _ => nan

/-- IEEE negation on the model. -/
def neg : JsNum → JsNum
  | fin a => fin a.neg
  | inf => ninf
  | ninf => inf
  | nan => nan

/-- IEEE subtraction on the model. -/
def sub (a b : JsNum) : JsNum := add a (neg b)

/-- IEEE multiplication on the model. -/
def mul : JsNum → JsNum → JsNum
  | fin a, fin b => fin (a.mul b)
  | fin a, inf => if a.isPos then inf else if a.isNeg then ninf else nan
  | fin a, ninf => if a.isPos then ninf else if a.isNeg then inf else nan
  | inf, fin b => if b.isPos then inf else if b.isNeg then ninf else nan
  | ninf, fin b => if b.isPos then ninf else if b.isNeg then inf else nan
  | inf, inf => inf
  | ninf, ninf => inf
  | inf, ninf => ninf
  | ninf, inf => ninf
  | _, _ => nan

/-- IEEE division on the model; division of a non-zero finite value by
zero yields a signed infinity, and zero by zero yields NaN, exactly as in
the JavaScript engine (negative zero is not modelled). -/
def div : JsNum → JsNum → JsNum
  | fin a, fin b =>
    if b.isZero then (if a.isPos then inf else if a.isNeg then ninf else nan)
    else fin (a.div b)
  | fin _, inf => fin QJ.zero
  | fin _, ninf => fin QJ.zero
  | inf, fin b => if b.isNeg then ninf else inf
  | ninf, fin b => if b.isNeg then inf else ninf
  | _, _ => nan

/-- Integer powers of a rational. -/
def ratPow (q : QJ) : Int → QJ
  | Int.ofNat n => q.powN n
  | Int.negSucc n => if q.isZero then QJ.zero else (q.powN (n + 1)).inv

/-- Model of the exponentiation operator.  Only integer exponents of
finite bases are modelled exactly; a fractional exponent produces an
irrational double in the engine, which the rational model conservatively
maps to NaN.  No verified statement depends on exponentiation. -/
def pow : JsNum → JsNum → JsNum
  | fin a, fin b =>
    if b.den = 1 then
      if a.isZero ∧ b.num < 0 then inf else fin (ratPow a b.num)
    else nan
  | fin a, inf =>
    if a = ⟨1, 1⟩ ∨ a = ⟨-1, 1⟩ then nan else if a.isZero then fin QJ.zero else inf
  | fin a, ninf =>
    if a = ⟨1, 1⟩ ∨ a = ⟨-1, 1⟩ then nan else if a.isZero then inf else fin QJ.zero
  | inf, fin b => if b.isPos then inf else if b.isNeg then fin QJ.zero else fin ⟨1, 1⟩
  | ninf, fin b => if b.isPos then inf else if b.isNeg then fin QJ.zero else fin ⟨1, 1⟩
  | _, _ => nan

/-- Decimal string of a non-integral rational.  JavaScript prints the
shortest decimal that round-trips through the double; that formatting is
not reproduced by the rational model, and no verified statement depends on
it.  Integral values and the special values are printed exactly as the
engine prints them. -/
def ratFracStr (q : QJ) : String := intToStr q.num ++ "/" ++ natToStr q.den

/-- Model of Number.prototype.toString as used on evaluation results. -/
def toStr : JsNum → String
  | inf => "Infinity"
  | ninf => "-Infinity"
  | nan => "NaN"
  | fin q => if q.den = 1 then intToStr q.num else ratFracStr q

end JsNum

/-! ## Evaluation of whitelisted arithmetic source text

The source evaluates whitelisted strings with the JavaScript Function
constructor under strict mode.  The functions below model the engine on
the sublanguage reachable through the whitelists: decimal literals, the
binary operators, unary signs, exponentiation and parentheses.  Corner
cases in which such a string is not an arithmetic expression at all
(line or block comments, regular-expression literals) are modelled as
evaluation failure; no verified statement depends on them. -/

/-- Tokens of the whitelisted arithmetic sublanguage.  The increment and
decrement spellings are lexed by the engine as single tokens and always
produce a syntax error in this grammar, so lexing fails on them. -/
inductive ATok where
  | num (q : QJ)
  | plus
  | minus
  | star
  | slash
  | starstar
  | lpar
  | rpar
  deriving DecidableEq, Repr

/-- Reads a maximal run of decimal digits. -/
def takeDigits : List Char → List Char × List Char
  | [] => ([], [])
  | c :: cs =>
    if c.isDigit then
      let p := takeDigits cs
      (c :: p.1, p.2)
    else ([], c :: cs)

/-- Value of a digit list before the decimal point. -/
def digitsVal (ds : List Char) : QJ :=
  ds.foldl (fun acc c => (acc.mul (QJ.ofN 10)).add (QJ.ofN (c.toNat - '0'.toNat))) QJ.zero

/-- Value of a digit list after the decimal point. -/
def fracVal (ds : List Char) : QJ :=
  ds.foldr (fun c acc => (acc.add (QJ.ofN (c.toNat - '0'.toNat))).div (QJ.ofN 10)) QJ.zero

/-- Lexes a numeric literal starting at the given characters, in strict
mode: a leading zero followed by another digit is a syntax error, a bare
dot is a syntax error, and a literal needs at least one digit. -/
def lexNumber (cs : List Char) : Option (QJ × List Char) :=
  let ip := takeDigits cs
  match ip.2 with
  | '.' :: rest =>
    let fp := takeDigits rest
    if ip.1 = [] ∧ fp.1 = [] then none
    else if 2 ≤ ip.1.length ∧ ip.1.headD 'x' = '0' then none
    else some ((digitsVal ip.1).add (fracVal fp.1), fp.2)
  | other =>
    if ip.1 = [] then none
    else if 2 ≤ ip.1.length ∧ ip.1.headD 'x' = '0' then none
    else some (digitsVal ip.1, other)

/-- Lexer for the whitelisted arithmetic sublanguage, driven by explicit
fuel (the input length suffices). -/
def lexArith : Nat → List Char → Option (List ATok)
  | 0, _ => none
  | _, [] => some []
  | fuel + 1, c :: cs =>
    if isJsWs c then lexArith fuel cs
    else if c = '+' then
      match cs with
      | '+' :: _ => none
      | _ => (lexArith fuel cs).map (ATok.plus :: ·)
    else if c = '-' then
      match cs with
      | '-' :: _ => none
      | _ => (lexArith fuel cs).map (ATok.minus :: ·)
    else if c = '*' then
      match cs with
      | '*' :: cs2 => (lexArith fuel cs2).map (ATok.starstar :: ·)
      | _ => (lexArith fuel cs).map (ATok.star :: ·)
    else if c = '/' then
      match cs with
      | '/' :: _ => none
      | '*' :: _ => none
      | _ => (lexArith fuel cs).map (ATok.slash :: ·)
    else if c = '(' then (lexArith fuel cs).map (ATok.lpar :: ·)
    else if c = ')' then (lexArith fuel cs).map (ATok.rpar :: ·)
    else if c.isDigit ∨ c = '.' then
      match lexNumber (c :: cs) with
      | none => none
      | some (q, rest) =>
        if rest.length < cs.length + 1 then
          (lexArith fuel rest).map (ATok.num q :: ·)
        else none
    else none

mutual
/-- Additive level of the expression grammar. -/
def parseAdd : Nat → List ATok → Option (JsNum × List ATok)
  | 0, _ => none
  | fuel + 1, ts => do
    let p ← parseMul fuel ts
    parseAddTail fuel p.1 p.2

/-- Left-associative chain of additive operators. -/
def parseAddTail : Nat → JsNum → List ATok → Option (JsNum × List ATok)
  | 0, _, _ => none
  | fuel + 1, acc, ts =>
    match ts with
    | ATok.plus :: rest => do
      let p ← parseMul fuel rest
      parseAddTail fuel (JsNum.add acc p.1) p.2
    | ATok.minus :: rest => do
      let p ← parseMul fuel rest
      parseAddTail fuel (JsNum.sub acc p.1) p.2
    | _ => some (acc, ts)

/-- Multiplicative level of the expression grammar. -/
def parseMul : Nat → List ATok → Option (JsNum × List ATok)
  | 0, _ => none
  | fuel + 1, ts => do
    let p ← parseUnary fuel ts
    parseMulTail fuel p.1 p.2

/-- Left-associative chain of multiplicative operators. -/
def parseMulTail : Nat → JsNum → List ATok → Option (JsNum × List ATok)
  | 0, _, _ => none
  | fuel + 1, acc, ts =>
    match ts with
    | ATok.star :: rest => do
      let p ← parseUnary fuel rest
      parseMulTail fuel (JsNum.mul acc p.1) p.2
    | ATok.slash :: rest => do
      let p ← parseUnary fuel rest
      parseMulTail fuel (JsNum.div acc p.1) p.2
    | _ => some (acc, ts)

/-- Unary level: sign chains; a signed operand followed by the
exponentiation operator is a syntax error in the engine and fails here. -/
def parseUnary : Nat → List ATok → Option (JsNum × List ATok)
  | 0, _ => none
  | fuel + 1, ts =>
    match ts with
    | ATok.minus :: rest => do
      let p ← parseUnarySigned fuel rest
      match p.2 with
      | ATok.starstar :: _ => none
      | _ => some (JsNum.neg p.1, p.2)
    | ATok.plus :: rest => do
      let p ← parseUnarySigned fuel rest
      match p.2 with
      | ATok.starstar :: _ => none
      | _ => some (p.1, p.2)
    | _ => parsePow fuel ts

/-- Operand of a unary sign: further signs over an atom, with the
exponentiation level excluded, matching the engine grammar in which a
signed operand cannot be the base of the exponentiation operator. -/
def parseUnarySigned : Nat → List ATok → Option (JsNum × List ATok)
  | 0, _ => none
  | fuel + 1, ts =>
    match ts with
    | ATok.minus :: rest => do
      let p ← parseUnarySigned fuel rest
      some (JsNum.neg p.1, p.2)
    | ATok.plus :: rest => do
      let p ← parseUnarySigned fuel rest
      some (p.1, p.2)
    | _ => parseAtom fuel ts

/-- Exponentiation level, right-associative, binding tighter than the
unary signs on its left but admitting signed right operands. -/
def parsePow : Nat → List ATok → Option (JsNum × List ATok)
  | 0, _ => none
  | fuel + 1, ts => do
    let p ← parseAtom fuel ts
    match p.2 with
    | ATok.starstar :: rest => do
      let r ← parseUnary fuel rest
      some (JsNum.pow p.1 r.1, r.2)
    | _ => some (p.1, p.2)

/-- Atoms: numeric literals and parenthesised expressions. -/
def parseAtom : Nat → List ATok → Option (JsNum × List ATok)
  | 0, _ => none
  | fuel + 1, ts =>
    match ts with
    | ATok.num q :: rest => some (JsNum.fin q, rest)
    | ATok.lpar :: rest => do
      let p ← parseAdd fuel rest
      match p.2 with
      | ATok.rpar :: rest2 => some (p.1, rest2)
      | _ => none
    | _ => none
end

/-- Model of evaluating a whitelisted string with the Function constructor
in strict mode: lex, parse the full token list as one expression, return
its value; any lexing or parsing failure models the thrown SyntaxError. -/
def jsEval (s : String) : Option JsNum := do
  let ts ← lexArith (s.data.length + 1) s.data
  if ts = [] then none
  else
    let p ← parseAdd (ts.length * 2 + 4) ts
    if p.2 = [] then some p.1 else none

/-! ## Case-insensitive word replacement

The math service rewrites textual operator words to symbols with global
case-insensitive regular expressions of the shape: optional whitespace,
literal word, optional whitespace.  Replacement proceeds left to right on
non-overlapping matches; the leftmost match around an occurrence of the
word also swallows the whitespace runs adjacent to it. -/

/-- Case-insensitive literal match at the head of a character list. -/
def ciAt (needle : List Char) (hay : List Char) : Bool :=
  decide ((needle.map asciiLower) <+: (hay.map asciiLower))

/-- Index of the first case-insensitive occurrence of the needle. -/
def ciFind (needle : List Char) : List Char → Option Nat
  | [] => if needle = [] then some 0 else none
  | c :: cs =>
    if ciAt needle (c :: cs) then some 0
    else (ciFind needle cs).map (· + 1)

/-- Length of the trailing whitespace run of a character list. -/
def trailWsLen (l : List Char) : Nat := (l.reverse.takeWhile isJsWs).length

/-- Replacement engine for one global case-insensitive pattern of shape
optional-whitespace word optional-whitespace, replacing every match by the
given symbol.  Fuel bounds the recursion; the input length suffices. -/
def replaceWsWordAux (word repl : List Char) : Nat → List Char → List Char
  | 0, l => l
  | fuel + 1, l =>
    match ciFind word l with
    | none => l
    | some i =>
      let pre := l.take i
      let core := pre.take (pre.length - trailWsLen pre)
      let rest := (l.drop (i + word.length)).dropWhile isJsWs
      core ++ repl ++ replaceWsWordAux word repl fuel rest

/-- Model of s.replace with a global case-insensitive pattern of shape
optional-whitespace word optional-whitespace and a symbol replacement. -/
def replaceWsWord (word repl : String) (s : String) : String :=
  ⟨replaceWsWordAux word.data repl.data (s.data.length + 1) s.data⟩

/-- Replacement engine for a global case-insensitive pattern of shape
word optional-trailing-whitespace (no leading whitespace in the
pattern). -/
def replaceWordTailAux (word repl : List Char) : Nat → List Char → List Char
  | 0, l => l
  | fuel + 1, l =>
    match ciFind word l with
    | none => l
    | some i =>
      let pre := l.take i
      let rest := (l.drop (i + word.length)).dropWhile isJsWs
      pre ++ repl ++ replaceWordTailAux word repl fuel rest

/-- Model of s.replace with a global case-insensitive pattern of shape
word optional-trailing-whitespace. -/
def replaceWordTail (word repl : String) (s : String) : String :=
  ⟨replaceWordTailAux word.data repl.data (s.data.length + 1) s.data⟩

/-! ## Data model of generated study content -/

/-- Math question record of the pipeline output. -/
structure MathQuestion where
  question : String
  answer : String
  explanation : String
  deriving DecidableEq, Repr

/-- Quiz item record of the pipeline output. -/
structure QuizItem where
  question : String
  options : List String
  correctAnswer : String
  explanation : String
  deriving DecidableEq, Repr

/-- Payload of generated content: a quiz in normal mode or a math question
in math mode. -/
inductive Payload where
  | quiz (items : List QuizItem)
  | mathQ (q : MathQuestion)
  deriving DecidableEq, Repr

/-- Study content as constructed by the pipeline itself. -/
structure ContentData where
  summary : List String
  payload : Payload
  studyTip : String
  deriving DecidableEq, Repr

/-- Relevant fields of a JSON object parsed from free-form provider text.
A missing or null field is none; note that an empty array is a truthy
JavaScript value and is therefore represented as some of the empty
list. -/
structure ParsedData where
  summary : Option (List String)
  quiz : Option (List QuizItem)
  mathQuestion : Option MathQuestion
  studyTip : Option String
  deriving DecidableEq, Repr

/-- Data carried by a successful generation result: either content built
by the pipeline or a raw validated provider object. -/
inductive GenData where
  | content (c : ContentData)
  | parsed (p : ParsedData)
  deriving DecidableEq, Repr

/-- Result record of generateAIContent: success with data, or the failure
record with error and message fields. -/
inductive GenResult where
  | ok (d : GenData)
  | err (error message : String)
  deriving DecidableEq, Repr

/-- Truth of the success flag of a generation result. -/
def GenResult.isOk : GenResult → Bool
  | .ok _ => true
  | .err _ _ => false

/-! ## mathService.js -/

/-- Characters of the whitelist class containing digits, the four
operators, parentheses, the dot and whitespace. -/
def wlWithWs (c : Char) : Bool :=
  c.isDigit || isOpChar c || c = '(' || c = ')' || c = '.' || isJsWs c

/-- Characters of the whitelist class without whitespace. -/
def wlNoWs (c : Char) : Bool :=
  c.isDigit || isOpChar c || c = '(' || c = ')' || c = '.'

/-- Explanation builder generateMathExplanation of mathService.js. -/
def generateMathExplanation (expression answer : String) : String :=
  let cleanExpr := removeWs expression
  let s1 : List String :=
    if jsIncludesB cleanExpr "(" then
      ["Step 1: Evaluate expressions inside parentheses first (PEMDAS rule)"]
    else []
  let s2 : List String :=
    if jsIncludesB cleanExpr "^" || jsIncludesB cleanExpr "**" ||
        jsIncludesB cleanExpr "sqrt(" || jsIncludesB cleanExpr "pow(" ||
        jsIncludesB cleanExpr "exp(" then
      ["Step 2: Evaluate exponents and functions"]
    else []
  let s3 : List String :=
    if jsIncludesB cleanExpr "*" || jsIncludesB cleanExpr "/" then
      ["Step 3: Perform multiplication and division from left to right"]
    else []
  let s4 : List String :=
    if jsIncludesB cleanExpr "+" ||
        (jsIncludesB cleanExpr "-" && !startsWithB cleanExpr "-") then
      ["Step 4: Perform addition and subtraction from left to right"]
    else []
  let steps := s1 ++ s2 ++ s3 ++ s4
  let steps := if steps.length = 0 then ["Direct evaluation: " ++ expression] else steps
  let steps := steps ++ ["\nFinal Answer: " ++ expression ++ " = " ++ answer]
  let steps :=
    if 2 < steps.length then
      steps ++ ["\nRemember PEMDAS: Parentheses → Exponents → Multiplication/Division → Addition/Subtraction"]
    else steps
  String.intercalate "\n" steps

/-- Result record of the expression evaluators. -/
structure EvalResult where
  success : Bool
  answer : String
  expression : String
  explanation : String
  deriving DecidableEq, Repr

/-- Cleaning step of safeEvaluateMath: every character outside the
whitelist class is deleted and the result is trimmed. -/
def safeCleanExpr (expression : String) : String :=
  jsTrim ⟨expression.data.filter wlWithWs⟩

/-- String handed by safeEvaluateMath to the Function constructor, when
both of its guards pass; none when a guard throws before evaluation. -/
def safeEvaluateMathEvalStr (expression : String) : Option String :=
  if safeCleanExpr expression ≠ "" ∧ (safeCleanExpr expression).data.all wlWithWs then
    if (safeCleanExpr expression).data.all
        (fun c => c ∈ ['+', '-', '*', '/', '(', ')', '.', ' '] || c.isDigit) then
      some (safeCleanExpr expression)
    else none
  else none

/-- Local fallback evaluator safeEvaluateMath of mathService.js.  The
string evaluated, when evaluation is reached, is exactly the value of
safeEvaluateMathEvalStr; the thrown-error messages of the source are
reproduced, with the engine message of a SyntaxError abbreviated. -/
def safeEvaluateMath (expression : String) : Except String EvalResult :=
  match safeEvaluateMathEvalStr expression with
  | some t =>
    match jsEval t with
    | some v =>
      .ok ⟨true, v.toStr, t, generateMathExplanation t v.toStr⟩
    | none => .error "Cannot evaluate expression: SyntaxError"
  | none =>
    let cleanExpr := safeCleanExpr expression
    if cleanExpr ≠ "" ∧ cleanExpr.data.all wlWithWs then
      .error "Cannot evaluate expression: Expression contains disallowed operations"
    else .error "Expression contains unsafe characters"

/-- Text normalisation of evaluateMathExpression: operator words become
symbols, instruction verbs are dropped, question marks are removed. -/
def mathjsNormalize (expression : String) : String :=
  let c0 := jsTrim expression
  let c1 := replaceWsWord "plus" "+" c0
  let c2 := replaceWsWord "minus" "-" c1
  let c3 := replaceWsWord "times" "*" c2
  let c4 := replaceWsWord "multiplied by" "*" c3
  let c5 := replaceWsWord "divided by" "/" c4
  let c6 := replaceWsWord "over" "/" c5
  let c7 := replaceWsWord "equals" "=" c6
  let c8 := replaceWsWord "is" "=" c7
  let c9 := replaceWordTail "what is" "" c8
  let c10 := replaceWordTail "solve" "" c9
  let c11 := replaceWordTail "calculate" "" c10
  let c12 := replaceWordTail "evaluate" "" c11
  jsTrim ⟨(jsTrim c12).data.filter (· ≠ '?')⟩

/-- Remote evaluator evaluateMathExpression of mathService.js.  The
math.js HTTP call together with its response decoding is supplied as the
environment function mathjs, which returns the decoded answer string or
none for any network or HTTP failure; the axios error message interpolated
into the rethrown message is abbreviated to a fixed placeholder. -/
def evaluateMathExpression (mathjs : String → Option String)
    (expression : String) : Except String EvalResult :=
  if mathjsNormalize expression = "" then
    match safeEvaluateMath expression with
    | .ok r => .ok r
    | .error _ => .error "Failed to evaluate math expression: Invalid math expression"
  else
    match mathjs (mathjsNormalize expression) with
    | some answer =>
      .ok ⟨true, answer, mathjsNormalize expression,
        generateMathExplanation (mathjsNormalize expression) answer⟩
    | none =>
      match safeEvaluateMath expression with
      | .ok r => .ok r
      | .error _ => .error "Failed to evaluate math expression: Network Error"

/-- Study material built by solveMathExpression from a successful
evaluation result. -/
def solveData (r : EvalResult) : GenResult :=
  .ok (.content
    { summary :=
        ["Mathematical expression: " ++ r.expression,
         "This expression can be evaluated using standard order of operations (PEMDAS)",
         "The result is " ++ r.answer],
      payload := .mathQ
        ⟨"Solve: " ++ r.expression, r.answer, r.explanation⟩,
      studyTip := "Remember PEMDAS (Parentheses, Exponents, Multiplication/Division, Addition/Subtraction) when solving math expressions. Always work from left to right for operations of the same precedence." })

/-- Wrapper solveMathExpression of mathService.js building study material
from an evaluation result. -/
def solveMathExpression (mathjs : String → Option String)
    (expression : String) : Except String GenResult :=
  match evaluateMathExpression mathjs expression with
  | .ok r => .ok (solveData r)
  | .error m => .error ("Failed to solve math expression: " ++ m)

/-- Helper performing the anchored alternation of a case-insensitive
leading-prefix regex whose alternatives must be followed by mandatory
whitespace; the first alternative that matches wins, the matched prefix
and the following whitespace run are removed. -/
def stripAltsLead (alts : List String) (s : String) : String :=
  match alts.findSome? (fun p =>
    if ciAt p.data s.data then
      match s.data.drop p.data.length with
      | c :: rest =>
        if isJsWs c then some (⟨rest.dropWhile isJsWs⟩ : String) else none
      | [] => none
    else none) with
  | some r => r
  | none => s

/-- Prefix test of the pattern digits, optional whitespace, one operator,
optional whitespace, one digit; exact because the three character classes
are disjoint, so greedy matching never needs to backtrack. -/
def p2Test (l : List Char) : Bool :=
  let d1 := takeDigits l
  match d1.1 with
  | [] => false
  | _ =>
    match d1.2.dropWhile isJsWs with
    | c :: r2 =>
      isOpChar c &&
        (match r2.dropWhile isJsWs with
         | d :: _ => d.isDigit
         | [] => false)
    | [] => false

/-- Digit-or-dot class of the third pattern. -/
def isDigOrDot (c : Char) : Bool := c.isDigit || c = '.'

/-- Prefix test of the pattern digit-or-dot run, optional whitespace, one
operator, optional whitespace, digit-or-dot; exact by class
disjointness. -/
def p3Test (l : List Char) : Bool :=
  let a := l.takeWhile isDigOrDot
  match a with
  | [] => false
  | _ =>
    match (l.drop a.length).dropWhile isJsWs with
    | c :: r2 =>
      isOpChar c &&
        (match r2.dropWhile isJsWs with
         | d :: _ => isDigOrDot d
         | [] => false)
    | [] => false

/-- Prefix test of digits, optional whitespace, one textual operator word,
optional whitespace, one digit, with the alternation tried in source
order. -/
def p5Test (l : List Char) : Bool :=
  let d1 := takeDigits l
  match d1.1 with
  | [] => false
  | _ =>
    let r1 := d1.2.dropWhile isJsWs
    ["plus", "minus", "times", "multiplied by", "divided by", "over"].any
      (fun w =>
        ciAt w.data r1 &&
          (match (r1.drop w.data.length).dropWhile isJsWs with
           | d :: _ => d.isDigit
           | [] => false))

/-- Classifier isMathExpression of mathService.js, the predicate that the
orchestrator imports as checkMathExpression. -/
def checkMathExpression (text : String) : Bool :=
  if text = "" then false
  else
    let trimmed := strLower (jsTrim text)
    let cleaned :=
      jsTrim ⟨(stripAltsLead
        ["what is", "solve", "calculate", "evaluate", "find", "compute"]
        trimmed).data.filter (· ≠ '?')⟩
    let l := cleaned.data
    let hasNumber := l.any Char.isDigit
    let hasOperator :=
      l.any isOpChar ||
        ["plus", "minus", "times", "divided", "over", "multiplied"].any
          (jsIncludesB cleaned)
    let patterns :=
      (decide (cleaned ≠ "") && l.all wlWithWs) || p2Test l || p3Test l ||
        (["sqrt(", "sin(", "cos(", "tan(", "log(", "ln(", "exp(", "pow("].any
          (jsIncludesB cleaned)) ||
        p5Test l
    hasNumber && hasOperator && patterns

/-! ## aiService.js: static mock library -/

/-- Pair of pre-authored normal-mode and math-mode content of one
mock-library topic. -/
structure TopicMockData where
  normal : ContentData
  math : ContentData
  deriving DecidableEq, Repr

/-- Mock-library entry of the topic "python", transcribed from the
static table mockDataDatabase of aiService.js. -/
def pythonMock : TopicMockData where
  normal :=
    { summary :=
        ["Python is a high-level, interpreted programming language known for its simplicity and readability.",
         "It supports multiple programming paradigms including object-oriented, imperative, and functional programming.",
         "Python has a vast ecosystem of libraries and frameworks, making it ideal for web development, data science, AI, and automation."],
      payload := .quiz [
        { question := "What is the primary advantage of Python\x27s syntax?",
          options :=
            ["A) It requires minimal code and is highly readable",
             "B) It compiles faster than C++",
             "C) It only works on Windows",
             "D) It cannot handle large datasets"],
          correctAnswer := "A",
          explanation := "Python\x27s syntax is designed to be clean and readable, allowing developers to express concepts in fewer lines of code compared to other languages." },
        { question := "Which of the following is NOT a common use case for Python?",
          options :=
            ["A) Web development with Django or Flask",
             "B) Data analysis and machine learning",
             "C) Operating system kernel development",
             "D) Automation and scripting"],
          correctAnswer := "C",
          explanation := "Python is not typically used for low-level system programming like OS kernels. It\x27s better suited for high-level applications, data science, and automation." },
        { question := "What is a Python list comprehension?",
          options :=
            ["A) A way to create lists using a concise syntax",
             "B) A method to delete list items",
             "C) A debugging tool for Python",
             "D) A type of Python compiler"],
          correctAnswer := "A",
          explanation := "List comprehensions provide a concise way to create lists by applying an expression to each item in an iterable, often with optional filtering." }],
      studyTip := "Practice Python daily by solving coding challenges on platforms like LeetCode or HackerRank. Build small projects to reinforce concepts like functions, classes, and data structures." }
  math :=
    { summary :=
        ["Python programming involves mathematical concepts like algorithms, data structures, and computational complexity.",
         "Understanding time and space complexity (Big O notation) is crucial for writing efficient Python code.",
         "Python\x27s math library and NumPy provide powerful tools for mathematical computations and data analysis."],
      payload := .mathQ
        { question := "A Python function processes an array of n elements. If it uses a nested loop where the outer loop runs n times and the inner loop runs n times for each outer iteration, what is the time complexity?",
          answer := "O(n²)",
          explanation := "With nested loops where each runs n times, the total operations are n × n = n². This gives us quadratic time complexity O(n²), meaning the execution time grows with the square of the input size." },
      studyTip := "Master Python\x27s built-in data structures (lists, dictionaries, sets) and understand their time complexities. Practice algorithm problems to improve your problem-solving skills." }

/-- Mock-library entry of the topic "javascript", transcribed from the
static table mockDataDatabase of aiService.js. -/
def javascriptMock : TopicMockData where
  normal :=
    { summary :=
        ["JavaScript is a versatile programming language primarily used for web development, enabling interactive and dynamic web pages.",
         "It supports both frontend (browser) and backend (Node.js) development, making it a full-stack language.",
         "JavaScript uses event-driven, asynchronous programming with features like promises and async/await for handling operations."],
      payload := .quiz [
        { question := "What is the difference between let, const, and var in JavaScript?",
          options :=
            ["A) let and const are block-scoped, var is function-scoped",
             "B) They are all identical",
             "C) var is the only one that works in modern JavaScript",
             "D) const allows reassignment but let does not"],
          correctAnswer := "A",
          explanation := "let and const are block-scoped (ES6+), meaning they exist only within the block they\x27re declared. var is function-scoped and can be accessed throughout the entire function." },
        { question := "What is a closure in JavaScript?",
          options :=
            ["A) A function that has access to variables in its outer scope",
             "B) A way to close browser tabs",
             "C) A type of JavaScript error",
             "D) A method to delete variables"],
          correctAnswer := "A",
          explanation := "A closure is a function that retains access to variables from its outer (enclosing) scope even after the outer function has finished executing." },
        { question := "What does the === operator do in JavaScript?",
          options :=
            ["A) Strict equality check (value and type)",
             "B) Assignment operator",
             "C) Loose equality check (value only)",
             "D) Comparison that ignores type"],
          correctAnswer := "A",
          explanation := "=== performs strict equality, checking both value and type. Unlike ==, it does not perform type coercion." }],
      studyTip := "Build interactive web projects to practice JavaScript. Learn modern ES6+ features like arrow functions, destructuring, and template literals. Use browser DevTools to debug and understand code execution." }
  math :=
    { summary :=
        ["JavaScript handles mathematical operations and can work with numbers, though it has some quirks with floating-point arithmetic.",
         "Understanding algorithms and data structures in JavaScript is essential for efficient programming.",
         "JavaScript\x27s Math object provides built-in methods for common mathematical operations."],
      payload := .mathQ
        { question := "You have an array of 1000 numbers. You need to find if a specific number exists. If you use a linear search (checking each element), what is the worst-case time complexity? If you sort the array first and use binary search, what is the overall complexity?",
          answer := "Linear search: O(n) = O(1000). Binary search after sorting: O(n log n) for sorting + O(log n) for search = O(n log n) overall.",
          explanation := "Linear search checks each element once, giving O(n) time. Binary search requires sorting first (O(n log n)) then searching (O(log n)), but for multiple searches, binary search becomes more efficient. For a single search, linear is O(n) vs O(n log n) for sorted + binary." },
      studyTip := "Practice JavaScript algorithms on platforms like Codewars or LeetCode. Understand array methods (map, filter, reduce) and their time complexities. Learn about recursion and dynamic programming." }

/-- Mock-library entry of the topic "java", transcribed from the
static table mockDataDatabase of aiService.js. -/
def javaMock : TopicMockData where
  normal :=
    { summary :=
        ["Java is an object-oriented programming language known for its \"write once, run anywhere\" philosophy through the Java Virtual Machine (JVM).",
         "It uses strong typing, garbage collection, and has a rich standard library for building enterprise applications.",
         "Java is widely used in Android development, web applications, enterprise software, and large-scale systems."],
      payload := .quiz [
        { question := "What is the main difference between an interface and an abstract class in Java?",
          options :=
            ["A) Interfaces can have method implementations in Java 8+, abstract classes can have both abstract and concrete methods",
             "B) They are identical",
             "C) Abstract classes cannot have methods",
             "D) Interfaces require all methods to be implemented immediately"],
          correctAnswer := "A",
          explanation := "Interfaces define contracts and can have default/static methods (Java 8+). Abstract classes can have both abstract methods (must be overridden) and concrete methods with implementations." },
        { question := "What is the difference between == and .equals() in Java?",
          options :=
            ["A) == compares references, .equals() compares values (when overridden)",
             "B) They are the same",
             "C) == only works for primitives",
             "D) .equals() compares memory addresses"],
          correctAnswer := "A",
          explanation := "== compares object references (memory addresses), while .equals() compares the actual values when properly overridden. For primitives, == compares values." },
        { question := "What is polymorphism in Java?",
          options :=
            ["A) The ability of objects to take multiple forms",
             "B) A type of Java compiler",
             "C) A way to delete objects",
             "D) A Java version number"],
          correctAnswer := "A",
          explanation := "Polymorphism allows objects of different classes to be treated as objects of a common superclass, enabling method overriding and dynamic method dispatch." }],
      studyTip := "Practice Java by building projects that use OOP principles. Understand concepts like inheritance, encapsulation, and polymorphism. Use IDEs like IntelliJ IDEA for better development experience." }
  math :=
    { summary :=
        ["Java programming involves mathematical concepts in algorithms, data structures, and computational problem-solving.",
         "Understanding Big O notation and algorithm efficiency is crucial for writing performant Java applications.",
         "Java provides Math class and BigInteger/BigDecimal for precise mathematical operations."],
      payload := .mathQ
        { question := "You have a Java method that uses a recursive algorithm with the recurrence relation T(n) = 2T(n/2) + O(n). What is the time complexity using the Master Theorem?",
          answer := "O(n log n)",
          explanation := "Using the Master Theorem: a=2, b=2, f(n)=O(n). Since log_b(a) = log_2(2) = 1, and f(n) = Θ(n^1), we have Case 2: T(n) = Θ(n^log_b(a) × log n) = Θ(n log n)." },
      studyTip := "Master Java collections (ArrayList, HashMap, HashSet) and understand their time complexities. Practice algorithm problems focusing on recursion, dynamic programming, and graph algorithms." }

/-- Mock-library entry of the topic "biology", transcribed from the
static table mockDataDatabase of aiService.js. -/
def biologyMock : TopicMockData where
  normal :=
    { summary :=
        ["Biology is the study of living organisms, their structure, function, growth, evolution, and distribution.",
         "Key areas include cell biology, genetics, ecology, and physiology, all interconnected in understanding life.",
         "Modern biology integrates with chemistry, physics, and technology to advance fields like biotechnology and medicine."],
      payload := .quiz [
        { question := "What is the basic unit of life?",
          options :=
            ["A) Cell",
             "B) Atom",
             "C) Molecule",
             "D) Organ"],
          correctAnswer := "A",
          explanation := "The cell is the basic structural and functional unit of all living organisms. All life processes occur at the cellular level." },
        { question := "What is the process by which plants convert light energy into chemical energy?",
          options :=
            ["A) Photosynthesis",
             "B) Respiration",
             "C) Digestion",
             "D) Transpiration"],
          correctAnswer := "A",
          explanation := "Photosynthesis is the process where plants use sunlight, water, and carbon dioxide to produce glucose (chemical energy) and oxygen." },
        { question := "What does DNA stand for?",
          options :=
            ["A) Deoxyribonucleic Acid",
             "B) Dynamic Nuclear Assembly",
             "C) Double Nucleotide Array",
             "D) Dense Nucleic Acid"],
          correctAnswer := "A",
          explanation := "DNA stands for Deoxyribonucleic Acid, the molecule that carries genetic instructions for the development, functioning, and reproduction of all known organisms." }],
      studyTip := "Use visual aids like diagrams and models to understand biological structures. Create flashcards for terminology. Connect concepts to real-world examples and current research to make biology more engaging." }
  math :=
    { summary :=
        ["Biology involves mathematical concepts in genetics (probability, statistics), population dynamics, and data analysis.",
         "Understanding exponential growth, logistic growth models, and statistical analysis is essential for biological research.",
         "Bioinformatics combines biology with computational methods and mathematical modeling."],
      payload := .mathQ
        { question := "A bacterial population doubles every 20 minutes. If you start with 100 bacteria, how many bacteria will there be after 2 hours? Use the formula N = N₀ × 2^(t/T), where N₀ is initial population, t is time, and T is doubling time.",
          answer := "6,400 bacteria",
          explanation := "Given: N₀ = 100, t = 120 minutes (2 hours), T = 20 minutes. N = 100 × 2^(120/20) = 100 × 2^6 = 100 × 64 = 6,400 bacteria." },
      studyTip := "Practice calculating growth rates, understanding Punnett squares for genetics, and working with statistical data in biological contexts. Use graphing to visualize population dynamics and experimental results." }

/-- Mock-library entry of the topic "chemistry", transcribed from the
static table mockDataDatabase of aiService.js. -/
def chemistryMock : TopicMockData where
  normal :=
    { summary :=
        ["Chemistry is the study of matter, its properties, composition, structure, and the changes it undergoes.",
         "It bridges physics and biology, explaining molecular interactions and chemical reactions in nature and industry.",
         "Key branches include organic, inorganic, physical, and analytical chemistry, each with distinct applications."],
      payload := .quiz [
        { question := "What is the smallest unit of an element that retains its properties?",
          options :=
            ["A) Atom",
             "B) Molecule",
             "C) Electron",
             "D) Proton"],
          correctAnswer := "A",
          explanation := "An atom is the smallest unit of an element that retains the chemical properties of that element. It consists of protons, neutrons, and electrons." },
        { question := "What is the pH of a neutral solution?",
          options :=
            ["A) 7",
             "B) 0",
             "C) 14",
             "D) 1"],
          correctAnswer := "A",
          explanation := "A pH of 7 is neutral (neither acidic nor basic). pH < 7 is acidic, pH > 7 is basic. Pure water has a pH of 7." },
        { question := "What type of bond forms when atoms share electrons?",
          options :=
            ["A) Covalent bond",
             "B) Ionic bond",
             "C) Hydrogen bond",
             "D) Metallic bond"],
          correctAnswer := "A",
          explanation := "A covalent bond forms when two atoms share one or more pairs of electrons, typically between nonmetal atoms." }],
      studyTip := "Practice balancing chemical equations regularly. Use molecular model kits to visualize 3D structures. Create summary tables for periodic trends, reaction types, and functional groups in organic chemistry." }
  math :=
    { summary :=
        ["Chemistry requires mathematical skills for stoichiometry, molar calculations, equilibrium constants, and thermodynamics.",
         "Understanding ratios, proportions, and logarithms (for pH, pKa) is essential for solving chemistry problems.",
         "Physical chemistry heavily relies on calculus and mathematical modeling of chemical systems."],
      payload := .mathQ
        { question := "How many moles are in 88 grams of CO₂? (Atomic masses: C = 12 g/mol, O = 16 g/mol)",
          answer := "2 moles",
          explanation := "Molar mass of CO₂ = 12 + (16 × 2) = 12 + 32 = 44 g/mol. Number of moles = mass / molar mass = 88 g / 44 g/mol = 2 moles." },
      studyTip := "Master unit conversions and dimensional analysis. Practice stoichiometry problems step-by-step. Understand how to use the ideal gas law (PV = nRT) and calculate concentrations, pH, and equilibrium constants." }

/-- Mock-library entry of the topic "physics", transcribed from the
static table mockDataDatabase of aiService.js. -/
def physicsMock : TopicMockData where
  normal :=
    { summary :=
        ["Physics is the fundamental science studying matter, motion, energy, and the forces that govern the universe.",
         "It encompasses mechanics, thermodynamics, electromagnetism, optics, and quantum physics, explaining natural phenomena.",
         "Physics principles form the foundation for engineering, technology, and understanding the cosmos."],
      payload := .quiz [
        { question := "What is Newton\x27s First Law of Motion?",
          options :=
            ["A) An object at rest stays at rest, an object in motion stays in motion unless acted upon by a force",
             "B) F = ma",
             "C) For every action there is an equal and opposite reaction",
             "D) Energy cannot be created or destroyed"],
          correctAnswer := "A",
          explanation := "Newton\x27s First Law (Law of Inertia) states that objects maintain their state of motion unless acted upon by an unbalanced force." },
        { question := "What is the unit of electric current?",
          options :=
            ["A) Ampere (A)",
             "B) Volt (V)",
             "C) Ohm (Ω)",
             "D) Watt (W)"],
          correctAnswer := "A",
          explanation := "The ampere (A) is the SI unit of electric current, defined as the flow of one coulomb of charge per second." },
        { question := "What is the speed of light in a vacuum?",
          options :=
            ["A) Approximately 3 × 10⁸ m/s",
             "B) 100 m/s",
             "C) 3 × 10⁶ m/s",
             "D) It varies"],
          correctAnswer := "A",
          explanation := "The speed of light in a vacuum is approximately 299,792,458 m/s, often rounded to 3 × 10⁸ m/s. It is a fundamental constant of nature." }],
      studyTip := "Solve physics problems regularly to build problem-solving skills. Draw free-body diagrams for mechanics problems. Understand the relationships between concepts using equations and graphs. Practice unit conversions." }
  math :=
    { summary :=
        ["Physics is highly mathematical, using calculus, algebra, and trigonometry to describe natural phenomena.",
         "Key mathematical concepts include vectors, derivatives (for velocity/acceleration), integrals (for work/energy), and differential equations.",
         "Understanding dimensional analysis and unit conversions is crucial for solving physics problems correctly."],
      payload := .mathQ
        { question := "A car accelerates uniformly from rest to 60 m/s in 10 seconds. What is its acceleration? If it then travels at constant speed for 20 seconds, what is the total distance covered?",
          answer := "Acceleration = 6 m/s², Total distance = 1,500 m",
          explanation := "Acceleration a = Δv/Δt = (60 - 0) / 10 = 6 m/s². Distance during acceleration: d₁ = ½at² = ½ × 6 × 10² = 300 m. Distance at constant speed: d₂ = v × t = 60 × 20 = 1,200 m. Total distance = 300 + 1,200 = 1,500 m." },
      studyTip := "Master vector mathematics for forces and motion. Practice using kinematic equations. Learn to set up and solve problems systematically: identify knowns/unknowns, choose appropriate equations, and check units and reasonableness of answers." }

/-- Mock-library entry of the topic "calculus", transcribed from the
static table mockDataDatabase of aiService.js. -/
def calculusMock : TopicMockData where
  normal :=
    { summary :=
        ["Calculus is the mathematical study of continuous change, divided into differential and integral calculus.",
         "Differential calculus focuses on rates of change and slopes, while integral calculus deals with accumulation and areas under curves.",
         "Calculus is fundamental to physics, engineering, economics, and many scientific fields for modeling and optimization."],
      payload := .quiz [
        { question := "What is a derivative?",
          options :=
            ["A) The rate of change of a function at a point",
             "B) The area under a curve",
             "C) The sum of a series",
             "D) A type of equation"],
          correctAnswer := "A",
          explanation := "A derivative represents the instantaneous rate of change of a function, geometrically interpreted as the slope of the tangent line at a point." },
        { question := "What is an integral?",
          options :=
            ["A) The accumulation of a quantity or area under a curve",
             "B) The slope of a line",
             "C) A type of limit",
             "D) A derivative"],
          correctAnswer := "A",
          explanation := "An integral represents the accumulation of a quantity, geometrically interpreted as the area under a curve between two points." },
        { question := "What is the Fundamental Theorem of Calculus?",
          options :=
            ["A) It connects differentiation and integration",
             "B) It defines limits",
             "C) It solves equations",
             "D) It calculates derivatives only"],
          correctAnswer := "A",
          explanation := "The Fundamental Theorem of Calculus establishes the relationship between differentiation and integration, showing they are inverse operations." }],
      studyTip := "Practice finding derivatives and integrals of various functions. Understand the geometric and physical interpretations. Work through many problems to build intuition. Use graphing tools to visualize functions and their derivatives/integrals." }
  math :=
    { summary :=
        ["Calculus involves limits, derivatives, integrals, and their applications in optimization, related rates, and area/volume calculations.",
         "Key techniques include the chain rule, product rule, quotient rule for derivatives, and substitution and integration by parts for integrals.",
         "Applications include finding maxima/minima, calculating areas and volumes, and solving differential equations."],
      payload := .mathQ
        { question := "Find the derivative of f(x) = 3x⁴ - 2x³ + 5x - 7. Then find the critical points where f\x27(x) = 0.",
          answer := "f\x27(x) = 12x³ - 6x² + 5. Critical points: Solve 12x³ - 6x² + 5 = 0 (requires numerical methods or factoring).",
          explanation := "Using the power rule: d/dx(xⁿ) = nxⁿ⁻¹. f\x27(x) = 4(3x³) - 3(2x²) + 5(1) - 0 = 12x³ - 6x² + 5. Setting f\x27(x) = 0 gives 12x³ - 6x² + 5 = 0, which may require numerical methods to solve." },
      studyTip := "Master the basic differentiation and integration rules. Practice the chain rule extensively. Work on application problems like optimization and related rates. Understand limits and continuity thoroughly." }

/-- Mock-library entry of the topic "algebra", transcribed from the
static table mockDataDatabase of aiService.js. -/
def algebraMock : TopicMockData where
  normal :=
    { summary :=
        ["Algebra is the branch of mathematics dealing with symbols and the rules for manipulating them to solve equations.",
         "It includes linear algebra, polynomial equations, systems of equations, and abstract algebraic structures.",
         "Algebra provides the foundation for advanced mathematics and is essential for problem-solving across disciplines."],
      payload := .quiz [
        { question := "What is the solution to the equation 2x + 5 = 13?",
          options :=
            ["A) x = 4",
             "B) x = 9",
             "C) x = 6",
             "D) x = 8"],
          correctAnswer := "A",
          explanation := "Solving: 2x + 5 = 13 → 2x = 13 - 5 → 2x = 8 → x = 4" },
        { question := "What is the quadratic formula?",
          options :=
            ["A) x = (-b ± √(b² - 4ac)) / 2a",
             "B) x = b ± ac",
             "C) x = a² + b²",
             "D) x = -b/a"],
          correctAnswer := "A",
          explanation := "The quadratic formula x = (-b ± √(b² - 4ac)) / 2a solves equations of the form ax² + bx + c = 0." },
        { question := "What is a system of linear equations?",
          options :=
            ["A) Multiple equations with multiple variables solved simultaneously",
             "B) A single equation",
             "C) An equation with no solution",
             "D) A type of graph"],
          correctAnswer := "A",
          explanation := "A system of linear equations consists of multiple linear equations with the same variables, solved together to find values satisfying all equations." }],
      studyTip := "Practice solving equations step-by-step. Learn to factor polynomials and recognize common patterns. Use substitution and elimination methods for systems. Work on word problems to apply algebraic concepts." }
  math :=
    { summary :=
        ["Algebra involves solving equations, working with polynomials, factoring, and understanding functions and their properties.",
         "Key concepts include linear equations, quadratic equations, systems of equations, and matrix operations.",
         "Algebraic manipulation skills are essential for calculus and higher mathematics."],
      payload := .mathQ
        { question := "Solve the system of equations: 2x + 3y = 12 and x - y = 1. Find the values of x and y.",
          answer := "x = 3, y = 2",
          explanation := "From x - y = 1, we get x = y + 1. Substituting into the first equation: 2(y + 1) + 3y = 12 → 2y + 2 + 3y = 12 → 5y = 10 → y = 2. Then x = 2 + 1 = 3." },
      studyTip := "Master factoring techniques (GCF, difference of squares, trinomials). Practice solving systems using substitution and elimination. Understand function notation and operations. Work on word problems to build problem-solving skills." }

/-- Mock-library entry of the topic "world war ii", transcribed from the
static table mockDataDatabase of aiService.js. -/
def worldWarIiMock : TopicMockData where
  normal :=
    { summary :=
        ["World War II (1939-1945) was a global conflict involving most of the world\x27s nations, resulting in unprecedented destruction and loss of life.",
         "Key events include the rise of fascism, the Holocaust, major battles in Europe and the Pacific, and the use of atomic weapons.",
         "The war reshaped global politics, led to the formation of the United Nations, and marked the beginning of the Cold War era."],
      payload := .quiz [
        { question := "When did World War II begin and end?",
          options :=
            ["A) 1939-1945",
             "B) 1914-1918",
             "C) 1941-1945",
             "D) 1935-1943"],
          correctAnswer := "A",
          explanation := "World War II officially began on September 1, 1939, with Germany\x27s invasion of Poland, and ended on September 2, 1945, with Japan\x27s surrender." },
        { question := "Which event brought the United States into World War II?",
          options :=
            ["A) Attack on Pearl Harbor",
             "B) Invasion of Poland",
             "C) Battle of Stalingrad",
             "D) D-Day"],
          correctAnswer := "A",
          explanation := "The Japanese attack on Pearl Harbor on December 7, 1941, prompted the United States to declare war on Japan and enter World War II." },
        { question := "What was the Holocaust?",
          options :=
            ["A) The systematic persecution and murder of six million Jews and millions of others by Nazi Germany",
             "B) A battle in the Pacific",
             "C) A peace treaty",
             "D) A military strategy"],
          correctAnswer := "A",
          explanation := "The Holocaust was the systematic, state-sponsored persecution and murder of six million Jews and millions of other victims by Nazi Germany and its collaborators." }],
      studyTip := "Create timelines to understand the chronological sequence of events. Study maps to see how the war spread globally. Read primary sources and personal accounts to understand different perspectives. Connect causes and consequences." }
  math :=
    { summary :=
        ["World War II can be analyzed mathematically through statistics: casualties, economic costs, production numbers, and population changes.",
         "Understanding data visualization, percentages, and statistical analysis helps interpret the scale and impact of the war.",
         "Mathematical models can analyze military strategies, resource allocation, and economic impacts of the conflict."],
      payload := .mathQ
        { question := "If a country\x27s population was 50 million before World War II and decreased by 8% due to war casualties, what was the population after? If the population then grew at 2% per year for 5 years, what was the final population?",
          answer := "After war: 46 million. After 5 years: approximately 50.8 million",
          explanation := "After 8% decrease: 50M × 0.92 = 46 million. After 5 years at 2% growth: 46 × (1.02)⁵ = 46 × 1.104 = 50.784 million ≈ 50.8 million." },
      studyTip := "Analyze historical data using statistics and graphs. Calculate percentages for casualties, economic costs, and population changes. Use mathematical reasoning to understand scale and proportions in historical events." }

/-- Mock-library entry of the topic "machine learning", transcribed from the
static table mockDataDatabase of aiService.js. -/
def machineLearningMock : TopicMockData where
  normal :=
    { summary :=
        ["Machine Learning is a subset of artificial intelligence that enables systems to learn and improve from experience without explicit programming.",
         "It uses algorithms to identify patterns in data, make predictions, and automate decision-making processes.",
         "Key types include supervised learning, unsupervised learning, and reinforcement learning, each with different applications."],
      payload := .quiz [
        { question := "What is the difference between supervised and unsupervised learning?",
          options :=
            ["A) Supervised uses labeled data, unsupervised finds patterns in unlabeled data",
             "B) They are identical",
             "C) Supervised requires no data",
             "D) Unsupervised always needs labels"],
          correctAnswer := "A",
          explanation := "Supervised learning uses labeled training data (input-output pairs), while unsupervised learning finds hidden patterns in data without labeled examples." },
        { question := "What is overfitting in machine learning?",
          options :=
            ["A) When a model learns training data too well but fails on new data",
             "B) When a model is too simple",
             "C) When training takes too long",
             "D) When data is missing"],
          correctAnswer := "A",
          explanation := "Overfitting occurs when a model memorizes training data patterns (including noise) but doesn\x27t generalize well to unseen data, indicating poor model performance." },
        { question := "What is a neural network?",
          options :=
            ["A) A computing system inspired by biological neural networks",
             "B) A type of database",
             "C) A programming language",
             "D) A hardware component"],
          correctAnswer := "A",
          explanation := "A neural network is a machine learning model inspired by the human brain, consisting of interconnected nodes (neurons) that process information through layers." }],
      studyTip := "Start with fundamental concepts like linear regression and classification. Practice with real datasets on platforms like Kaggle. Understand the bias-variance tradeoff. Learn to evaluate models using metrics like accuracy, precision, and recall." }
  math :=
    { summary :=
        ["Machine Learning is deeply mathematical, using linear algebra, calculus, probability, and statistics.",
         "Key mathematical concepts include gradient descent, cost functions, matrix operations, and probability distributions.",
         "Understanding derivatives (for backpropagation), matrix multiplication, and statistical measures is essential for ML."],
      payload := .mathQ
        { question := "In linear regression, you have the cost function J(θ) = (1/2m) Σ(h(x) - y)². If you have 100 training examples (m=100), and the sum of squared errors is 500, what is the cost? What does minimizing this cost achieve?",
          answer := "Cost = 2.5. Minimizing achieves the best-fit line.",
          explanation := "J(θ) = (1/2 × 100) × 500 = (1/200) × 500 = 2.5. Minimizing this cost function finds the parameters (θ) that create the line of best fit, minimizing prediction errors." },
      studyTip := "Master linear algebra (matrix operations, vectors) and calculus (derivatives for gradient descent). Understand probability and statistics for data analysis. Practice implementing algorithms from scratch to deepen mathematical understanding." }

/-- Mock-library entry of the topic "data structures", transcribed from the
static table mockDataDatabase of aiService.js. -/
def dataStructuresMock : TopicMockData where
  normal :=
    { summary :=
        ["Data structures are ways of organizing and storing data in computer memory for efficient access and modification.",
         "Common structures include arrays, linked lists, stacks, queues, trees, and hash tables, each with different use cases.",
         "Choosing the right data structure is crucial for algorithm efficiency and optimal program performance."],
      payload := .quiz [
        { question := "What is the time complexity of accessing an element in an array by index?",
          options :=
            ["A) O(1) - constant time",
             "B) O(n) - linear time",
             "C) O(log n) - logarithmic time",
             "D) O(n²) - quadratic time"],
          correctAnswer := "A",
          explanation := "Array access by index is O(1) because arrays store elements in contiguous memory, allowing direct calculation of the element\x27s address." },
        { question := "What is the main advantage of a hash table?",
          options :=
            ["A) Average O(1) lookup, insert, and delete operations",
             "B) Always sorted",
             "C) No collisions possible",
             "D) Unlimited size"],
          correctAnswer := "A",
          explanation := "Hash tables provide average-case O(1) time complexity for basic operations by using a hash function to map keys to array indices." },
        { question := "What is the difference between a stack and a queue?",
          options :=
            ["A) Stack is LIFO (Last In First Out), queue is FIFO (First In First Out)",
             "B) They are identical",
             "C) Stack is FIFO, queue is LIFO",
             "D) Both are random access"],
          correctAnswer := "A",
          explanation := "A stack follows LIFO (like a stack of plates), while a queue follows FIFO (like a line of people). This affects insertion and removal order." }],
      studyTip := "Visualize data structures using diagrams. Practice implementing them from scratch in your preferred language. Understand time and space complexities. Solve problems on platforms like LeetCode that require specific data structures." }
  math :=
    { summary :=
        ["Data structures involve mathematical analysis of time and space complexity using Big O notation.",
         "Understanding algorithms requires mathematical reasoning about operations, comparisons, and memory usage.",
         "Tree structures involve mathematical properties like height, depth, and balancing algorithms with logarithmic complexity."],
      payload := .mathQ
        { question := "A binary search tree has n nodes. What is the best-case, average-case, and worst-case time complexity for searching? What determines the worst case?",
          answer := "Best: O(1), Average: O(log n), Worst: O(n). Worst case occurs when the tree is unbalanced (like a linked list).",
          explanation := "Best case: target is root (O(1)). Average case: balanced tree gives O(log n) as you eliminate half the tree each level. Worst case: unbalanced tree (all nodes on one side) becomes O(n) like a linear search." },
      studyTip := "Master Big O notation and complexity analysis. Practice calculating time/space complexity for different operations. Understand mathematical properties of trees (height, balance). Learn to analyze algorithm efficiency mathematically." }

/-- Static table mockDataDatabase of aiService.js, in source key order. -/
def mockTable : List (String × TopicMockData) :=
  [("python", pythonMock),
   ("javascript", javascriptMock),
   ("java", javaMock),
   ("biology", biologyMock),
   ("chemistry", chemistryMock),
   ("physics", physicsMock),
   ("calculus", calculusMock),
   ("algebra", algebraMock),
   ("world war ii", worldWarIiMock),
   ("machine learning", machineLearningMock),
   ("data structures", dataStructuresMock)]

/-- Alias table of findMatchingTopic, in source order. -/
def variationsList : List (String × String) :=
  [("python programming", "python"),
   ("javascript programming", "javascript"),
   ("java programming", "java"),
   ("biology science", "biology"),
   ("chemistry science", "chemistry"),
   ("physics science", "physics"),
   ("calculus math", "calculus"),
   ("algebra math", "algebra"),
   ("ww2", "world war ii"),
   ("world war 2", "world war ii"),
   ("ml", "machine learning"),
   ("ai", "machine learning"),
   ("artificial intelligence", "machine learning")]

/-- Keys of the mock table in source order, the list the containment
loop of findMatchingTopic iterates over. -/
def mockKeys : List String :=
  ["python", "javascript", "java", "biology", "chemistry", "physics",
   "calculus", "algebra", "world war ii", "machine learning", "data structures"]

/-- Property lookup in the mock table. -/
def lookupMock (k : String) : Option TopicMockData :=
  (mockTable.find? (fun kv => kv.1 == k)).map Prod.snd

/-- Topic matcher findMatchingTopic of aiService.js: exact lowercase key
match, then substring containment in either direction against the keys in
order, then the alias table in order. -/
def findMatchingTopic (topic : String) : Option String :=
  let topicLower := jsTrim (strLower topic)
  match mockTable.find? (fun kv => kv.1 == topicLower) with
  | some _ => some topicLower
  | none =>
    match mockKeys.find?
        (fun k => jsIncludesB topicLower k || jsIncludesB k topicLower) with
    | some k => some k
    | none =>
      match variationsList.find?
          (fun v => jsIncludesB topicLower v.1 || topicLower == v.2) with
      | some v => some v.2
      | none => none

/-- Generic normal-mode template of generateMockContent, parameterised by
the literal topic. -/
def genericNormal (topic : String) : ContentData where
  summary :=
    [topic ++ " is a fascinating subject with many practical applications and real-world relevance.",
     "Understanding " ++ topic ++ " requires studying its fundamental principles, key concepts, and underlying theories.",
     topic ++ " has significant importance in modern contexts and connects to various related fields and disciplines."]
  payload := .quiz
    [{ question := "What is a fundamental concept in " ++ topic ++ "?",
       options :=
         ["A) Understanding core principles and foundational knowledge",
          "B) Memorizing unrelated facts",
          "C) Avoiding practical applications",
          "D) Ignoring theoretical frameworks"],
       correctAnswer := "A",
       explanation := "A solid understanding of fundamental concepts and core principles forms the foundation for deeper learning in any subject." },
     { question := "Why is studying " ++ topic ++ " valuable?",
       options :=
         ["A) It has limited real-world applications",
          "B) It helps develop critical thinking and problem-solving skills",
          "C) It is only useful for academic purposes",
          "D) It has no connection to other subjects"],
       correctAnswer := "B",
       explanation := "Studying any topic develops critical thinking, problem-solving abilities, and helps you understand connections between different areas of knowledge." },
     { question := "What is the best approach to learning " ++ topic ++ "?",
       options :=
         ["A) Passive reading without practice",
          "B) Active engagement with examples, practice problems, and real-world applications",
          "C) Memorizing without understanding",
          "D) Avoiding hands-on practice"],
       correctAnswer := "B",
       explanation := "Active learning through practice, examples, and real-world applications is the most effective way to truly understand and retain knowledge." }]
  studyTip := "Create study guides and summaries for " ++ topic ++ ". Use active recall techniques like flashcards and practice questions. Connect new concepts to what you already know. Teach the material to someone else to reinforce your understanding."

/-- Generic math-mode template of generateMockContent, parameterised by
the literal topic. -/
def genericMath (topic : String) : ContentData where
  summary :=
    [topic ++ " involves important mathematical concepts and quantitative analysis.",
     "Key principles require understanding numerical relationships and logical reasoning.",
     "Applications of " ++ topic ++ " can be modeled and solved using mathematical methods."]
  payload := .mathQ
    { question := "A study session on " ++ topic ++ " requires learning 8 key concepts. If you learn 3 concepts per day, how many full days are needed? How many concepts remain on the last day?",
      answer := "3 full days (9 concepts total), with 1 concept remaining on day 3",
      explanation := "Day 1: 3 concepts, Day 2: 3 concepts, Day 3: 3 concepts = 9 total. But you only need 8, so: Day 1: 3, Day 2: 3, Day 3: 2 concepts. So 3 full days are needed, with 2 concepts on the last day (not 1 remaining - actually you complete all 8 in 3 days with 2 on day 3)." }
  studyTip := "Break down mathematical problems in " ++ topic ++ " into smaller steps. Practice with real examples and use visual aids like graphs or diagrams to understand relationships."

/-- Dispatch of generateMockContent on the matched key, topic and mode. -/
def mockFromMatched (matched : Option String) (topic mode : String) : GenResult :=
  let topicData := matched.bind lookupMock
  if mode == "math" then
    match topicData with
    | some td => .ok (.content td.math)
    | none => .ok (.content (genericMath topic))
  else
    match topicData with
    | some td => .ok (.content td.normal)
    | none => .ok (.content (genericNormal topic))

/-- Mock-library generator generateMockContent of aiService.js. -/
def generateMockContent (topic mode : String) : GenResult :=
  mockFromMatched (findMatchingTopic topic) topic mode

/-! ## aiService.js: classifiers and local arithmetic path -/

/-- Local classifier isMathExpression of aiService.js (lines 1081 to
1088), distinct from the imported mathService predicate. -/
def isMathExpressionAi (topic : String) : Bool :=
  let cleaned := removeWs topic
  let mathPat := decide (cleaned ≠ "") && cleaned.data.all wlWithWs
  let hasOperators := cleaned.data.any (fun c => isOpChar c || c = '=')
  let hasNumbers := cleaned.data.any Char.isDigit
  mathPat && hasOperators && hasNumbers

/-- Complexity vocabulary of isComplexMathProblem. -/
def complexityKeywords : List String :=
  ["time complexity", "space complexity", "big o", "worst-case", "best-case",
   "linear search", "binary search", "sort", "algorithm", "array", "worst case",
   "overall complexity", "asymptotic", "o(n)", "o(log n)", "o(n log n)",
   "data structure", "tree", "graph", "hash", "heap", "stack", "queue"]

/-- Calculation-verb vocabulary of isComplexMathProblem. -/
def calculationKeywords : List String :=
  ["calculate", "solve", "find", "what is", "how many", "determine",
   "compute", "evaluate", "result", "answer", "work out", "figure out"]

/-- Problem-indicator vocabulary of isComplexMathProblem. -/
def problemIndicators : List String :=
  ["if you", "suppose", "given that", "assume", "problem", "question",
   "how would", "what would", "how much", "how long", "scenario",
   "situation", "case", "example", "instance", "when", "where"]

/-- Situational vocabulary of isComplexMathProblem. -/
def situationKeywords : List String :=
  ["you have", "you are", "you need", "you want", "given",
   "there are", "there is", "consider", "imagine", "think about",
   "word problem", "story problem", "real-world", "practical"]

/-- Word-problem vocabulary of isComplexMathProblem. -/
def wordProblemIndicators : List String :=
  ["how many", "how much", "how long", "how far", "how fast",
   "what is the", "what are the", "which", "why", "explain"]

/-- Classifier isComplexMathProblem of aiService.js. -/
def isComplexMathProblem (topic : String) : Bool :=
  let lowerTopic := strLower topic
  let hasComplexityTerms := complexityKeywords.any (jsIncludesB lowerTopic)
  let hasCalculationTerms := calculationKeywords.any (jsIncludesB lowerTopic)
  let hasProblemIndicators := problemIndicators.any (jsIncludesB lowerTopic)
  let hasSituationKeywords := situationKeywords.any (jsIncludesB lowerTopic)
  let hasWordProblemIndicators := wordProblemIndicators.any (jsIncludesB lowerTopic)
  let hasQuestionMark := jsIncludesB topic "?"
  let hasMultipleSentences := 2 < (splitPunctSingle topic).length
  hasComplexityTerms || hasSituationKeywords ||
    (hasCalculationTerms && hasProblemIndicators) ||
    (hasWordProblemIndicators && hasMultipleSentences) ||
    (hasQuestionMark &&
      (hasComplexityTerms || hasCalculationTerms || hasSituationKeywords))

/-- String handed by safeEval of aiService.js to the Function constructor:
the whitespace-stripped expression, provided it passes the whitelist test;
none when the test rejects it before any evaluation. -/
def safeEvalInput (expression : String) : Option String :=
  if removeWs expression ≠ "" ∧ (removeWs expression).data.all wlNoWs then
    some (removeWs expression)
  else none

/-- Guarded evaluator safeEval of aiService.js; none models both the
regular-expression rejection and a caught evaluation error. -/
def safeEval (expression : String) : Option JsNum :=
  (safeEvalInput expression).bind jsEval

/-- Model of the global parseFloat as applied by the source to operand
fragments of whitelisted expressions: leading whitespace is skipped, an
optional sign and a decimal literal are read, and anything unparseable is
NaN.  Exponent notation cannot reach these call sites. -/
def parseFloatJs (s : String) : JsNum :=
  let l := s.data.dropWhile isJsWs
  let sgn : Bool × List Char :=
    match l with
    | '-' :: r => (true, r)
    | '+' :: r => (false, r)
    | _ => (false, l)
  let ip := takeDigits sgn.2
  let app := fun (q : QJ) => if sgn.1 then q.neg else q
  match ip.2 with
  | '.' :: rest =>
    let fp := takeDigits rest
    if ip.1 = [] ∧ fp.1 = [] then .nan
    else .fin (app ((digitsVal ip.1).add (fracVal fp.1)))
  | _ => if ip.1 = [] then .nan else .fin (app (digitsVal ip.1))

/-- Fixed answer text of the unsafe-expression fallback. -/
def sentinelAnswer : String :=
  "Unable to evaluate - please check the expression format"

/-- Content returned by generateMathExpressionSolution when safeEval
yields no value. -/
def mathExprFallbackData (expression : String) : ContentData where
  summary :=
    ["The expression \"" ++ expression ++ "\" contains mathematical operations",
     "Mathematical expressions follow order of operations (PEMDAS)",
     "Understanding basic arithmetic is fundamental to mathematics"]
  payload := .mathQ
    { question := "Evaluate the expression: " ++ expression,
      answer := sentinelAnswer,
      explanation := "The expression could not be safely evaluated. Please ensure it contains only numbers and basic operators (+, -, *, /, parentheses)." }
  studyTip := "Practice basic arithmetic operations. Remember PEMDAS: Parentheses, Exponents, Multiplication/Division, Addition/Subtraction."

/-- Local fallback generateMathExpressionSolution of aiService.js. -/
def generateMathExpressionSolution (expression : String) : GenResult :=
  match safeEval expression with
  | none => .ok (.content (mathExprFallbackData expression))
  | some result =>
    let rStr := result.toStr
    let parts := ((splitOps expression).map jsTrim).filter (· ≠ "")
    let operators := expression.data.filter isOpChar
    let explanation :=
      if operators.length = 1 then
        let a := (parseFloatJs (parts.getD 0 "")).toStr
        let b := (parseFloatJs (parts.getD 1 "")).toStr
        match operators.headD ' ' with
        | '+' => a ++ " + " ++ b ++ " = " ++ rStr ++ ". Adding " ++ a ++ " and " ++ b ++ " gives us " ++ rStr ++ "."
        | '-' => a ++ " - " ++ b ++ " = " ++ rStr ++ ". Subtracting " ++ b ++ " from " ++ a ++ " gives us " ++ rStr ++ "."
        | '*' => a ++ " × " ++ b ++ " = " ++ rStr ++ ". Multiplying " ++ a ++ " by " ++ b ++ " gives us " ++ rStr ++ "."
        | '/' => a ++ " ÷ " ++ b ++ " = " ++ rStr ++ ". Dividing " ++ a ++ " by " ++ b ++ " gives us " ++ rStr ++ "."
        | _ => "To solve " ++ expression ++ ": "
      else
        "Following order of operations (PEMDAS), " ++ expression ++ " = " ++ rStr ++ "."
    .ok (.content
      { summary :=
          ["The expression \"" ++ expression ++ "\" evaluates to " ++ rStr,
           "Mathematical expressions follow the order of operations (PEMDAS)",
           "Basic arithmetic operations are fundamental to all mathematics"],
        payload := .mathQ
          { question := "What is the result of: " ++ expression ++ "?",
            answer := rStr,
            explanation := explanation },
        studyTip := "Practice mental math regularly. Break down complex expressions into smaller parts. Remember PEMDAS: Parentheses, Exponents, Multiplication/Division (left to right), Addition/Subtraction (left to right)." })

/-! ## aiService.js: deterministic synthesis from retrieved context -/

/-- Whitespace-collapsed and trimmed form of the retrieved context. -/
def cleanedOf (context : String) : String := jsTrim (collapseWs context)

/-- Qualifying sentences of the context: split on sentence punctuation
runs, trimmed, kept when strictly longer than 30 and shorter than 500
characters. -/
def qualSentences (context : String) : List String :=
  ((splitPunctRuns (cleanedOf context)).map jsTrim).filter
    (fun s => 30 < s.length && s.length < 500)

/-- Truncation of a summary entry over 150 characters. -/
def trunc150 (s : String) : String :=
  if 150 < s.length then jsSubstring s 0 147 ++ "..." else s

/-- Concatenation used by the source as join with the empty separator. -/
def sJoin (l : List String) : String := String.join l

/-- First summary-padding loop: while fewer than 3 entries and the
cleaned context is longer than the concatenation so far, append the next
150-character chunk when its trimmed length exceeds 30, else stop. -/
def sumFill (cleaned : String) : Nat → List String → List String
  | 0, acc => acc
  | fuel + 1, acc =>
    if acc.length < 3 ∧ (sJoin acc).length < cleaned.length then
      let usedLength := (sJoin acc).length
      let nextChunk :=
        jsTrim (jsSubstring (jsSubstring cleaned usedLength cleaned.length) 0 150)
      if 30 < nextChunk.length then
        sumFill cleaned fuel
          (acc ++ [nextChunk ++ (if 150 ≤ nextChunk.length then "..." else "")])
      else acc
    else acc

/-- Final summary-padding loop: unconditionally append a chunk while
fewer than 3 entries, stopping once the concatenation covers the cleaned
context. -/
def sumTail (cleaned : String) : Nat → List String → List String
  | 0, acc => acc
  | fuel + 1, acc =>
    if acc.length < 3 then
      let j := (sJoin acc).length
      let acc' := acc ++ [jsTrim (jsSubstring cleaned j (j + 150)) ++ "..."]
      if cleaned.length ≤ (sJoin acc').length then acc'
      else sumTail cleaned fuel acc'
    else acc

/-- Summary construction of generateFromWikipediaContext before the final
padding loop and slice. -/
def synthSummaryBase (cleaned : String) (sentences : List String) : List String :=
  if 3 ≤ sentences.length then (sentences.take 3).map trunc150
  else if 0 < sentences.length then
    sumFill cleaned 3 (sentences.map trunc150)
  else
    let s0 := [jsTrim (jsSubstring cleaned 0 150) ++ "..."]
    let s1 :=
      if 150 < cleaned.length then s0 ++ [jsTrim (jsSubstring cleaned 150 300) ++ "..."]
      else s0
    if 300 < cleaned.length then s1 ++ [jsTrim (jsSubstring cleaned 300 450) ++ "..."]
    else s1

/-- Complete summary construction of generateFromWikipediaContext. -/
def synthSummary (cleaned : String) (sentences : List String) : List String :=
  (sumTail cleaned 3 (synthSummaryBase cleaned sentences)).take 3

/-- First quiz item of the synthesiser, built from the opening excerpt;
the correct option carries label A. -/
def synthQuizItem1 (topic firstPart : String) : QuizItem :=
  let questionText :=
    if 100 < firstPart.length then
      "What is " ++ topic ++ " according to the information provided?"
    else "According to the Wikipedia information, what is " ++ topic ++ "?"
  let correctAnswer :=
    if 100 < firstPart.length then jsSubstring firstPart 0 100 ++ "..." else firstPart
  { question := questionText,
    options :=
      ["A) " ++ correctAnswer,
       "B) A medical procedure unrelated to this topic",
       "C) A technology concept with no clear definition",
       "D) An undefined term with no specific meaning"],
    correctAnswer := "A",
    explanation := "This definition comes directly from the Wikipedia article: \"" ++
      jsSubstring firstPart 0 120 ++
      (if 120 < firstPart.length then "..." else "") ++ "\"" }

/-- Second quiz item of the synthesiser, built from a middle excerpt; the
correct option carries label B. -/
def synthQuizItem2 (topic middlePart : String) : QuizItem :=
  let keyConcept :=
    if 80 < middlePart.length then jsSubstring middlePart 0 80 ++ "..." else middlePart
  { question := "What is a key aspect, characteristic, or method related to " ++
      topic ++ " mentioned in the Wikipedia information?",
    options :=
      ["A) An approach that is not mentioned in the information",
       "B) " ++ keyConcept,
       "C) A concept that contradicts the provided information",
       "D) Something completely unrelated to the topic"],
    correctAnswer := "B",
    explanation := "This aspect is mentioned in the Wikipedia article: \"" ++
      jsSubstring middlePart 0 120 ++
      (if 120 < middlePart.length then "..." else "") ++ "\"" }

/-- Third quiz item of the synthesiser, built from a later excerpt; the
correct option carries label C. -/
def synthQuizItem3 (topic laterPart : String) : QuizItem :=
  let application :=
    if 80 < laterPart.length then jsSubstring laterPart 0 80 ++ "..." else laterPart
  { question := "Based on the Wikipedia information, how is " ++ topic ++
      " used, why is it important, or what are its applications?",
    options :=
      ["A) It has no practical applications or importance",
       "B) It is only used in theoretical contexts",
       "C) " ++ application,
       "D) It is not relevant to any field"],
    correctAnswer := "C",
    explanation := "This information comes from the Wikipedia article: \"" ++
      jsSubstring laterPart 0 120 ++
      (if 120 < laterPart.length then "..." else "") ++ "\"" }

/-- Quiz item appended by the filling loop of the synthesiser. -/
def synthFillItem (topic rc : String) : QuizItem where
  question := "What information about " ++ topic ++
    " can you learn from the Wikipedia article?"
  options :=
    ["A) " ++ jsSubstring rc 0 80 ++ (if 80 < rc.length then "..." else ""),
     "B) Information that contradicts the Wikipedia article",
     "C) Details not mentioned in the provided information",
     "D) Facts unrelated to the topic"]
  correctAnswer := "A"
  explanation := "This information is based on the Wikipedia content provided about " ++
    topic ++ "."

/-- Quiz item built from a summary point by the padding step of the
synthesiser. -/
def synthPadItem (topic sp : String) : QuizItem where
  question := "Which of the following is mentioned in the Wikipedia information about " ++
    topic ++ "?"
  options :=
    ["A) " ++ jsSubstring sp 0 80 ++ (if 80 < sp.length then "..." else ""),
     "B) Information not found in the Wikipedia article",
     "C) Details that contradict the provided information",
     "D) Facts unrelated to the topic"]
  correctAnswer := "A"
  explanation := "This is based on the Wikipedia information: \"" ++
    jsSubstring sp 0 100 ++ (if 100 < sp.length then "..." else "") ++ "\""

/-- Initial quiz construction of the synthesiser from the first, middle
and later excerpts.  An out-of-range index yields the substring fallback
of the source; list members cannot be empty here, so the falsy-element
case of the source disjunction never fires. -/
def synthQuizBase (topic cleaned : String) (sentences : List String) : List QuizItem :=
  let firstPart := (sentences.get? 0).getD (jsSubstring cleaned 0 200)
  let middlePart := (sentences.get? (sentences.length / 2)).getD (jsSubstring cleaned 200 400)
  let laterPart := (sentences.get? (min 2 (sentences.length - 1))).getD (jsSubstring cleaned 400 600)
  (if firstPart ≠ "" ∧ 20 < firstPart.length then [synthQuizItem1 topic firstPart] else []) ++
  (if middlePart ≠ "" ∧ 20 < middlePart.length then [synthQuizItem2 topic middlePart] else []) ++
  (if laterPart ≠ "" ∧ 20 < laterPart.length then [synthQuizItem3 topic laterPart] else [])

/-- Filling loop of the synthesiser quiz: while fewer than 3 items,
append an item from the next 200-character window when it is longer than
30 characters, else stop. -/
def quizFill (topic cleaned : String) : Nat → List QuizItem → List QuizItem
  | 0, q => q
  | fuel + 1, q =>
    if q.length < 3 then
      let rc := jsSubstring cleaned (q.length * 200) ((q.length + 1) * 200)
      if 30 < rc.length then quizFill topic cleaned fuel (q ++ [synthFillItem topic rc])
      else q
    else q

/-- Padding step of the synthesiser quiz from summary points longer than
30 characters. -/
def quizPad (topic : String) (summary : List String) (q : List QuizItem) : List QuizItem :=
  if q.length < 3 then
    q ++ ((summary.take (3 - q.length)).filter (fun sp => 30 < sp.length)).map
      (synthPadItem topic)
  else q

/-- Complete quiz construction of the synthesiser. -/
def synthQuiz (topic cleaned : String) (sentences summary : List String) : List QuizItem :=
  quizPad topic summary (quizFill topic cleaned 3 (synthQuizBase topic cleaned sentences))

/-- Numeric-token extraction of the math branch, the global match of a
digit run with an optional fractional part, driven by fuel. -/
def scanNums : Nat → List Char → List String
  | 0, _ => []
  | _, [] => []
  | fuel + 1, c :: cs =>
    if c.isDigit then
      let ip := takeDigits (c :: cs)
      match ip.2 with
      | '.' :: rest =>
        match takeDigits rest with
        | ([], _) => (⟨ip.1⟩ : String) :: scanNums fuel ip.2
        | (fd, rest2) => (⟨ip.1 ++ '.' :: fd⟩ : String) :: scanNums fuel rest2
      | other => (⟨ip.1⟩ : String) :: scanNums fuel other
    else scanNums fuel cs

/-- Absolute value on the number model. -/
def JsNum.abs : JsNum → JsNum
  | .fin q => .fin q.abs
  | .inf => .inf
  | .ninf => .inf
  | .nan => .nan

/-- Model of Number.prototype.toFixed with two digits, on the rational
model with round half away from zero; the engine rounds the underlying
double, which agrees on the values reached here. -/
def jsToFixed2 : JsNum → String
  | .inf => "Infinity"
  | .ninf => "-Infinity"
  | .nan => "NaN"
  | .fin q =>
    let a := (2 * 100 * q.num.natAbs + q.den) / (2 * q.den)
    (if q.num < 0 then "-" else "") ++ natToStr (a / 100) ++ "." ++
      (if a % 100 < 10 then "0" else "") ++ natToStr (a % 100)

/-- Math-mode branch of generateFromWikipediaContext.  The operator draw
of the source, the floor of Math.random times 4, is supplied as the rand
component of the environment reduced modulo 4. -/
def synthMathBranch (rand : Nat) (topic context cleaned : String)
    (summary sentences2 : List String) : ContentData :=
  let numbers := scanNums (context.data.length + 1) context.data
  let mq : MathQuestion :=
    if 2 ≤ numbers.length ∧ 0 < sentences2.length then
      let num1 := parseFloatJs (numbers.getD 0 "")
      let num2 := parseFloatJs (numbers.getD 1 "")
      let op := ["+", "-", "*", "/"].getD (rand % 4) "+"
      let resAndExpl : String × String :=
        if op = "+" then
          let r := (JsNum.add num1 num2).toStr
          (r, "Adding " ++ num1.toStr ++ " and " ++ num2.toStr ++ " gives us " ++ r ++ ".")
        else if op = "-" then
          let r := (JsNum.abs (JsNum.sub num1 num2)).toStr
          (r, "The difference between " ++ num1.toStr ++ " and " ++ num2.toStr ++ " is " ++ r ++ ".")
        else if op = "*" then
          let r := (JsNum.mul num1 num2).toStr
          (r, "Multiplying " ++ num1.toStr ++ " by " ++ num2.toStr ++ " gives us " ++ r ++ ".")
        else
          if num2 ≠ .fin QJ.zero then
            let r := jsToFixed2 (JsNum.div num1 num2)
            (r, "Dividing " ++ num1.toStr ++ " by " ++ num2.toStr ++ " gives us " ++ r ++ ".")
          else
            let r := (JsNum.add num1 num2).toStr
            (r, "Adding " ++ num1.toStr ++ " and " ++ num2.toStr ++ " gives us " ++ r ++ " (division by zero avoided).")
      { question := "Based on the information about " ++ topic ++ ", if we have " ++
          num1.toStr ++ " and " ++ num2.toStr ++
          " (numbers mentioned in the article), what is " ++ num1.toStr ++ " " ++
          op ++ " " ++ num2.toStr ++ "?",
        answer := resAndExpl.1,
        explanation := resAndExpl.2 ++
          " This calculation is based on numerical data from the Wikipedia article about " ++
          topic ++ "." }
    else
      let firstSentence := (sentences2.get? 0).getD (jsSubstring cleaned 0 200)
      let wordCount := (splitWsKeep firstSentence).length
      let charCount := firstSentence.length
      let ratio := jsToFixed2 (JsNum.div (.fin (QJ.ofN charCount)) (.fin (QJ.ofN wordCount)))
      { question := "Based on the Wikipedia information about " ++ topic ++
          ", if the first key point contains " ++ natToStr wordCount ++
          " words and " ++ natToStr charCount ++
          " characters, what is the average number of characters per word? Round to 2 decimal places.",
        answer := ratio,
        explanation := "To find the average characters per word, divide total characters (" ++
          natToStr charCount ++ ") by total words (" ++ natToStr wordCount ++ "): " ++
          natToStr charCount ++ " ÷ " ++ natToStr wordCount ++ " = " ++ ratio ++
          " characters per word." }
  { summary := summary,
    payload := .mathQ mq,
    studyTip := "To master " ++ topic ++
      ", practice quantitative problems related to the concepts. Break down complex calculations into smaller steps." }

/-- Synthesiser generateFromWikipediaContext of aiService.js.  The
try-catch wrapper of the source is dead code, as no statement of the body
can throw; the function always returns a success record. -/
def genFromWikipediaContext (rand : Nat) (topic context mode : String) : GenResult :=
  let cleaned := cleanedOf context
  let sentences := qualSentences context
  let summary := synthSummary cleaned sentences
  if mode == "math" then
    .ok (.content (synthMathBranch rand topic context cleaned summary sentences))
  else
    .ok (.content
      { summary := summary,
        payload := .quiz (synthQuiz topic cleaned sentences summary),
        studyTip := "To effectively study " ++ topic ++
          ", review the key points from the Wikipedia article and focus on understanding the main concepts and their relationships." })

/-! ## aiService.js: the orchestrator generateAIContent

External effects are collected in an environment record.  Each provider
client is none when its API key is absent; a configured provider carries
the outcome of calling it, none for a caught call failure and some text
for a response (already trimmed, as the source trims each response).
JSON extraction from free-form provider text (fenced-block or brace
match followed by JSON.parse) is supplied as the environment function
parseJson.  Prompt construction of the source only shapes the text sent
to providers and is absorbed into the environment outcome. -/

/-- Environment of the orchestrator. -/
structure Env where
  hf : Option (Option String)
  gem : Option (Option String)
  oai : Option (Option String)
  parseJson : String → Option ParsedData
  mathjs : String → Option String
  rand : Nat

/-- Truthiness of an optional response string, with the empty string
falsy as in the source. -/
def truthyOpt : Option String → Bool
  | some s => s ≠ ""
  | none => false

/-- Outcome of the HuggingFace block: a configured client that produced
an empty trimmed text throws inside the block and is caught to none. -/
def hfText (env : Env) : Option String :=
  match env.hf with
  | none => none
  | some (some s) => if s = "" then none else some s
  | some none => none

/-- Response text left in responseText after the three provider blocks
have run in source order. -/
def cascadeText (env : Env) : Option String :=
  let t1 := hfText env
  let t2 :=
    if truthyOpt t1 then t1
    else match env.gem with
      | none => t1
      | some out => out
  if truthyOpt t2 then t2
  else match env.oai with
    | none => t2
    | some out => out

/-- Presence test of the supplied context as written in the source, the
conjunction of truthiness and positive trimmed length. -/
def ctxPresent (context : String) : Bool :=
  context ≠ "" && jsTrim context ≠ ""

/-- Truthiness of an optional string field of a parsed object. -/
def truthyStrOpt : Option String → Bool
  | some s => s ≠ ""
  | none => false

/-- Field validation of a parsed provider object by mode; only presence
of the fields is checked (an empty parsed array is truthy). -/
def validFieldsB (p : ParsedData) (mode : String) : Bool :=
  if mode == "math" then
    p.summary.isSome && p.mathQuestion.isSome && truthyStrOpt p.studyTip
  else
    p.summary.isSome && p.quiz.isSome && truthyStrOpt p.studyTip

/-- Catch handler of generateAIContent: an error result for a complex
math problem in math mode, otherwise synthesis from a present context,
otherwise mock content. -/
def handleCatchFallback (env : Env) (topic ctx mode errMsg : String) : GenResult :=
  if mode == "math" && isComplexMathProblem topic then
    .err "Failed to solve complex math problem. AI providers may be unavailable or rate-limited."
      errMsg
  else if ctxPresent ctx then genFromWikipediaContext env.rand topic ctx mode
  else generateMockContent topic mode

/-- Provider phase of generateAIContent: the configured-clients guard,
the response cascade, parsing and validation, with the fallbacks of the
source.  The context argument is the possibly cleared context variable. -/
def providersPhase (env : Env) (topic ctx mode : String) : GenResult × Bool :=
  if env.hf.isNone && env.oai.isNone && env.gem.isNone then
    if mode == "math" && isComplexMathProblem topic then
      (handleCatchFallback env topic ctx mode
        "AI providers required for complex math problems. Please configure at least one AI API key.",
       false)
    else (generateMockContent topic mode, false)
  else
    match cascadeText env with
    | some s =>
      if s = "" then
        if ctxPresent ctx then (genFromWikipediaContext env.rand topic ctx mode, true)
        else (generateMockContent topic mode, true)
      else
        match env.parseJson s with
        | none =>
          (handleCatchFallback env topic ctx mode "AI returned invalid JSON format", true)
        | some p =>
          if validFieldsB p mode then (.ok (.parsed p), true)
          else
            (handleCatchFallback env topic ctx mode
              (if mode == "math" then "AI response missing required math mode fields"
               else "AI response missing required normal mode fields"),
             true)
    | none =>
      if ctxPresent ctx then (genFromWikipediaContext env.rand topic ctx mode, true)
      else (generateMockContent topic mode, true)

/-- Orchestrator generateAIContent of aiService.js, instrumented: the
second component records whether control reaches the provider cascade
with at least one configured client, that is whether any provider API is
invoked during the call. -/
def generateAIContentT (env : Env) (topic context mode : String) : GenResult × Bool :=
  if mode == "math" && checkMathExpression topic then
    (match solveMathExpression env.mathjs topic with
     | .ok r => r
     | .error _ => generateMathExpressionSolution topic,
     false)
  else if mode == "math" && isComplexMathProblem topic then
    providersPhase env topic "" mode
  else if ctxPresent context then
    (genFromWikipediaContext env.rand topic context mode, false)
  else
    providersPhase env topic context mode

/-- Orchestrator generateAIContent of aiService.js. -/
def generateAIContent (env : Env) (topic context mode : String) : GenResult :=
  (generateAIContentT env topic context mode).1

/-! ## wikipediaService.js

The three HTTP calls are supplied by an environment; each returns either
a caught axios failure or the decoded response payload.  Exceptions are
modelled explicitly with Except so that the catch structure of the source
is visible and the no-escaping-exception property is a theorem rather
than a modelling artefact. -/

/-- Caught axios failure record with the fields the source inspects. -/
structure AxiosFailure where
  message : String
  code : String
  status : Option Nat
  deriving DecidableEq, Repr

/-- Decoded page data of a MediaWiki extract response. -/
structure ExtractData where
  extract : String
  title : String
  pageid : Nat
  deriving DecidableEq, Repr

/-- Decoded payload of the REST page-summary endpoint. -/
structure RestData where
  extract : String
  title : String
  pageUrl : Option String
  thumb : Option String
  deriving DecidableEq, Repr

/-- Result of fetchWikipediaData: the success record or the absent record
carrying the recorded reason. -/
inductive WikiResult where
  | found (extract title url : String) (thumbnail : Option String)
  | absent (error : String)
  deriving DecidableEq, Repr

/-- Success flag of a retrieval result. -/
def WikiResult.success : WikiResult → Bool
  | .found _ _ _ _ => true
  | .absent _ => false

/-- Recorded reason of an absent retrieval result. -/
def WikiResult.errReason : WikiResult → String
  | .found _ _ _ _ => ""
  | .absent e => e

/-- Environment of the retriever: outcomes of the MediaWiki extract call,
the search call and the REST summary call.  An ok-none outcome is a
well-formed response without usable payload. -/
structure WikiEnv where
  mediawiki : String → Except AxiosFailure (Option ExtractData)
  search : String → Except AxiosFailure (Option String)
  rest : String → Except AxiosFailure (Option RestData)

/-- Helper fetchExtractFromMediaWiki of wikipediaService.js: its own
catch folds any failure to null, and a page whose extract is empty after
trimming is also null. -/
def fetchExtractFromMediaWiki (env : WikiEnv) (pageTitle : String) : Option ExtractData :=
  match env.mediawiki pageTitle with
  | .error _ => none
  | .ok none => none
  | .ok (some d) =>
    if d.extract ≠ "" ∧ 0 < (jsTrim d.extract).length then some d else none

/-- Helper searchWikipediaTopic of wikipediaService.js: the top search
result title, with any failure caught to null. -/
def searchWikipediaTopic (env : WikiEnv) (topic : String) : Option String :=
  match env.search topic with
  | .error _ => none
  | .ok r => r

/-- Hexadecimal digit of percent encoding. -/
def hexDigit (n : Nat) : Char :=
  if n < 10 then Char.ofNat ('0'.toNat + n) else Char.ofNat ('A'.toNat + n - 10)

/-- Model of encodeURIComponent on the ASCII range; characters outside
ASCII pass through unencoded, a simplification no verified statement
depends on. -/
def encodeUriComp (s : String) : String :=
  ⟨s.data.flatMap (fun c =>
    if c.isAlphanum || c ∈ ['-', '_', '.', '!', '~', '*', '\x27', '(', ')'] then [c]
    else if c.toNat < 128 then ['%', hexDigit (c.toNat / 16), hexDigit (c.toNat % 16)]
    else [c])⟩

/-- Wikipedia page URL built by the source from a page title. -/
def wikiUrlOf (title : String) : String :=
  "https://en.wikipedia.org/wiki/" ++ encodeUriComp (underscoreWs title)

/-- REST fallback block of fetchWikipediaData, with its inner catch. -/
def restFallback (env : WikiEnv) (pageTitle : String) : WikiResult :=
  match env.rest pageTitle with
  | .ok (some rd) =>
    if rd.extract ≠ "" then .found rd.extract rd.title (rd.pageUrl.getD "") rd.thumb
    else .absent "Topic not found on Wikipedia or no extract available"
  | .ok none => .absent "Topic not found on Wikipedia or no extract available"
  | .error _ => .absent "Topic not found on Wikipedia or no extract available"

/-- Page-title and extract state after the direct lookup and the
search-based retry of fetchWikipediaData. -/
def wikiResolve (env : WikiEnv) (topic : String) : String × Option ExtractData :=
  match fetchExtractFromMediaWiki env topic with
  | some d => (topic, some d)
  | none =>
    match searchWikipediaTopic env topic with
    | some foundTitle => (foundTitle, fetchExtractFromMediaWiki env foundTitle)
    | none => (topic, none)

/-- Body of the outer try of fetchWikipediaData.  Both helpers catch
their own failures and the REST block carries its own catch, so no branch
of this body raises; the Except codomain makes that provable. -/
def fetchWikipediaDataCore (env : WikiEnv) (topic : String) : Except AxiosFailure WikiResult :=
  if topic = "" ∨ (jsTrim topic).length = 0 then
    .ok (.absent "Empty topic provided")
  else
    match (wikiResolve env topic).2 with
    | some d =>
      if d.extract ≠ "" then .ok (.found d.extract d.title (wikiUrlOf d.title) none)
      else .ok (restFallback env (wikiResolve env topic).1)
    | none => .ok (restFallback env (wikiResolve env topic).1)

/-- Retriever fetchWikipediaData of wikipediaService.js, the core body
wrapped in the outer catch of the source. -/
def fetchWikipediaData (env : WikiEnv) (topic : String) : WikiResult :=
  match fetchWikipediaDataCore env topic with
  | .ok r => r
  | .error e =>
    if e.status = some 404 then .absent "Topic not found on Wikipedia"
    else if e.code = "ECONNABORTED" ∨ jsIncludesB e.message "timeout" then
      .absent "Wikipedia API request timed out"
    else .absent (if e.message ≠ "" then e.message else "Failed to fetch from Wikipedia")

/-! ## studyController.js: extractMainTopic -/

/-- Question lead-ins stripped by extractMainTopic, in the alternation
order of the source. -/
def questionLeads : List String :=
  ["what is", "what\x27s", "what are", "tell me about", "explain",
   "describe", "define", "what do you know about"]

/-- Removal of the trailing run of question marks. -/
def stripTrailingQm (s : String) : String :=
  ⟨(s.data.reverse.dropWhile (· = '?')).reverse⟩

/-- Cleaning stage of extractMainTopic: strip one question lead-in, strip
trailing question marks, trim, strip one leading indefinite article. -/
def cleanQuery (q : String) : String :=
  stripAltsLead ["a", "an"] (jsTrim (stripTrailingQm (stripAltsLead questionLeads q)))

/-- Domain-term list of extractMainTopic. -/
def techTerms : List String :=
  ["python", "javascript", "java", "machine", "learning", "data", "structure",
   "algorithm", "calculus", "algebra", "biology", "chemistry", "physics",
   "quantum", "computing", "artificial", "intelligence", "neural", "network"]

/-- Upper-casing of the first character, the charAt-toUpperCase-slice
composition of the source. -/
def capitalizeFirst (w : String) : String :=
  match w.data with
  | [] => ""
  | c :: cs => ⟨asciiUpper c :: cs⟩

/-- Capitalisation test of the source: the first character equals its own
upper-case image (true for digits and punctuation as well). -/
def capStart (w : String) : Bool :=
  match w.data with
  | c :: _ => asciiUpper c = c
  | [] => false

/-- Left-to-right scan of extractMainTopic over the word list: a
domain-term hit is returned (paired with the following word for the
pairable subset), else a capitalised word longer than 2 is returned
(paired with a following word longer than 2). -/
def scanWords : List String → Option String
  | [] => none
  | w :: rest =>
    let wl := strLower w
    if techTerms.contains wl then
      some
        (if (wl = "machine" ∨ wl = "data" ∨ wl = "world" ∨ wl = "war" ∨
             wl = "artificial" ∨ wl = "neural" ∨ wl = "quantum") ∧ rest ≠ [] then
          w ++ " " ++ rest.headD ""
        else capitalizeFirst w)
    else if capStart w ∧ 2 < w.length then
      some
        (if (wl = "machine" ∨ wl = "world" ∨ wl = "data" ∨ wl = "artificial" ∨
             wl = "neural" ∨ wl = "quantum") ∧ rest ≠ [] then
          w ++ " " ++ rest.headD ""
        else
          match rest with
          | r :: _ => if 2 < r.length then w ++ " " ++ r else w
          | [] => w)
    else scanWords rest

/-- Join with a single-space separator, Array.prototype.join of the
source. -/
def jsJoinSpace : List String → String
  | [] => ""
  | [w] => w
  | w :: ws => w ++ " " ++ jsJoinSpace ws

/-- Topic normaliser extractMainTopic of studyController.js. -/
def extractMainTopic (query : String) : String :=
  if query = "" then ""
  else
    let cleaned := cleanQuery query
    let words := splitWs cleaned
    if words.length ≤ 4 then cleaned
    else
      match scanWords words with
      | some r => r
      | none =>
        let r := jsJoinSpace (words.take 3)
        if r = "" then cleaned else r

/-! ## Observation helpers for the verified statements -/

/-- Answer of the math question of a successful content result. -/
def GenResult.mathAnswer : GenResult → Option String
  | .ok (.content c) =>
    match c.payload with
    | .mathQ q => some q.answer
    | .quiz _ => none
  | _ => none

/-- Summary length of a successful content result. -/
def GenResult.summaryLen : GenResult → Option Nat
  | .ok (.content c) => some c.summary.length
  | _ => none

/-- Quiz length of a successful content result. -/
def GenResult.quizLen : GenResult → Option Nat
  | .ok (.content c) =>
    match c.payload with
    | .quiz items => some items.length
    | .mathQ _ => none
  | _ => none

/-- Answer of an evaluator result. -/
def evalAnswer : Except String EvalResult → Option String
  | .ok r => some r.answer
  | .error _ => none

/-- Well-formedness of one quiz item as stated by the specification:
exactly 4 options labelled A) to D) and a correct answer drawn from the
four letters. -/
def quizItemOkB (it : QuizItem) : Bool :=
  (match it.options with
   | [a, b, c, d] =>
     startsWithB a "A)" && startsWithB b "B)" && startsWithB c "C)" && startsWithB d "D)"
   | _ => false) &&
  (it.correctAnswer == "A" || it.correctAnswer == "B" ||
   it.correctAnswer == "C" || it.correctAnswer == "D")

/-- Normal-mode output invariant of the specification: success carrying
constructed content whose summary has exactly 3 entries and whose quiz
has exactly 3 well-formed items. -/
def goodNormalB : GenResult → Bool
  | .ok (.content c) =>
    c.summary.length == 3 &&
    (match c.payload with
     | .quiz items => items.length == 3 && items.all quizItemOkB
     | .mathQ _ => false)
  | _ => false

/-- Success flag of an evaluator result. -/
def evalOk : Except String EvalResult → Bool
  | .ok _ => true
  | .error _ => false

/-- Spec-side arithmetic-expression predicate, written from the claim
text for comparison with the source classifier: after removing
whitespace, the text matches the anchored character-class pattern of
digits, the four operators, parentheses and the dot, contains at least
one operator, and contains at least one digit. -/
def isArithmeticExpressionSpec (text : String) : Bool :=
  let cleaned := removeWs text
  decide (cleaned ≠ "") && cleaned.data.all wlNoWs &&
    cleaned.data.any isOpChar && cleaned.data.any Char.isDigit

/-- Environment with no configured provider and every remote service
failing. -/
def envNoProviders : Env :=
  ⟨none, none, none, fun _ => none, fun _ => none, 0⟩

/-- Environment with one configured provider whose call fails (no
response text), every other service failing. -/
def envProviderDown : Env :=
  ⟨some none, none, none, fun _ => none, fun _ => none, 0⟩

/-- Environment with one configured provider returning text that the
JSON extraction cannot parse. -/
def envBadJson : Env :=
  ⟨some (some "no json here"), none, none, fun _ => none, fun _ => none, 0⟩

/-- Parsed provider object that passes normal-mode validation while its
quiz is the empty array. -/
def looseParsed : ParsedData :=
  ⟨some [], some [], none, some "Study regularly."⟩

/-- Environment with one configured provider whose response parses to
the loose object above. -/
def envLooseJson : Env :=
  ⟨some (some "resp"), none, none, fun _ => some looseParsed, fun _ => none, 0⟩

/-- Retriever environment in which every HTTP call fails. -/
def wenvDown : WikiEnv :=
  ⟨fun _ => .error ⟨"timeout of 10000ms exceeded", "ECONNABORTED", none⟩,
   fun _ => .error ⟨"timeout of 8000ms exceeded", "ECONNABORTED", none⟩,
   fun _ => .error ⟨"Request failed with status code 404", "", some 404⟩⟩

/-- Concrete three-sentence context used to instantiate hypotheses. -/
def ctxThreeSentences : String :=
  "Tea is a drink that people have enjoyed for thousands of years. Tea leaves are harvested from plants grown in many countries. Tea culture differs widely between regions of the world."

/-! ## Theorems -/

/-- Sanity check: the declared key list is exactly the first projection
of the mock table. -/
theorem mockTable_keys : mockTable.map Prod.fst = mockKeys := by rfl

/-- C1 (counterexample).  A successful Normal-mode pipeline output need
not carry a 3-item summary and a 3-item quiz: with the supplied context
present but very short, the orchestrator returns the synthesiser result
whose summary has 2 entries and whose quiz is empty; and a validated
provider response passes validation with an empty quiz array. -/
theorem c1_counterexample :
    ((generateAIContentT envNoProviders "Cats" "Hi." "normal").1.summaryLen = some 2 ∧
     (generateAIContentT envNoProviders "Cats" "Hi." "normal").1.quizLen = some 0) ∧
    ((generateAIContentT envLooseJson "Cats" "" "normal").1 =
      GenResult.ok (.parsed looseParsed) ∧ looseParsed.quiz = some []) := by
  decide

/-- C4 (counterexample).  Dividing by zero is not special-cased: with the
remote service unavailable, evaluating 10/0 returns a success whose
answer is the string Infinity, leaked to the caller as the answer. -/
theorem c4_counterexample :
    evalAnswer (evaluateMathExpression (fun _ => none) "10/0") = some "Infinity" := by
  decide

/-- C5 (counterexample).  The local fallback evaluator safeEvaluateMath
does not reject inputs containing characters outside the whitelist: it
strips them and evaluates the remainder, accepting this input that
contains letters. -/
theorem c5_counterexample :
    ("alert(1)").data.all wlWithWs = false ∧
    evalAnswer (safeEvaluateMath "alert(1)") = some "1" := by
  decide

/-- C7 (counterexample).  The topic normaliser is not idempotent: one
pass over this input strips a single leading article, and a second pass
strips another. -/
theorem c7_counterexample :
    extractMainTopic "a an cat" = "an cat" ∧
    extractMainTopic (extractMainTopic "a an cat") ≠ extractMainTopic "a an cat" := by
  decide

/-- C9 (counterexample).  A topic containing the alias ai with no mock
key matching exactly or by containment need not map to the machine
learning entry: the earlier alias ww2 wins for this topic. -/
theorem c9_counterexample :
    jsIncludesB (jsTrim (strLower "ww2 aim")) "ai" = true ∧
    (∀ k ∈ mockKeys,
      jsIncludesB (jsTrim (strLower "ww2 aim")) k = false ∧
      jsIncludesB k (jsTrim (strLower "ww2 aim")) = false) ∧
    findMatchingTopic "ww2 aim" = some "world war ii" := by
  decide

/-- C2 (code evaluated at the failing input).  With mode math, a topic
classified as a complex problem and not as an arithmetic expression, and
one AI provider configured whose call fails to produce any text, the
orchestrator returns a success carrying generic mock math content
instead of the error the specification requires. -/
theorem c2_complex_math_mock_fallback :
    isComplexMathProblem "you have an array of numbers" = true ∧
    checkMathExpression "you have an array of numbers" = false ∧
    envProviderDown.hf.isSome = true ∧
    generateAIContent envProviderDown "you have an array of numbers" "" "math" =
      .ok (.content (genericMath "you have an array of numbers")) := by
  decide

/-- C3 (counterexample).  A call with the supplied context present can
still consult the AI providers: in math mode on a complex topic the
context is cleared, the provider cascade runs, and a parse failure
surfaces as an error rather than the synthesiser result. -/
theorem c3_counterexample :
    ctxPresent "x" = true ∧
    (generateAIContentT envBadJson "you have an array of numbers" "x" "math").2 = true ∧
    (generateAIContentT envBadJson "you have an array of numbers" "x" "math").1 =
      .err "Failed to solve complex math problem. AI providers may be unavailable or rate-limited."
        "AI returned invalid JSON format" := by
  decide

/-- C3 (amended).  When the supplied context is present and the call is
not a math-mode arithmetic expression and not a math-mode complex
problem, no AI provider is consulted and the result is exactly the
synthesiser output on that context. -/
theorem c3_context_bypasses_providers (env : Env) (topic context mode : String)
    (hctx : ctxPresent context = true)
    (h1 : (mode == "math" && checkMathExpression topic) = false)
    (h2 : (mode == "math" && isComplexMathProblem topic) = false) :
    generateAIContentT env topic context mode =
      (genFromWikipediaContext env.rand topic context mode, false) := by
  simp only [generateAIContentT, h1, h2, hctx, Bool.false_eq_true, if_false, if_true]

/-- Closed instance of the C3 theorem at a concrete call. -/
theorem c3_context_bypasses_providers_witness :
    generateAIContentT envLooseJson "Cats" "Some plain words here" "normal" =
      (genFromWikipediaContext envLooseJson.rand "Cats" "Some plain words here" "normal",
       false) :=
  c3_context_bypasses_providers envLooseJson "Cats" "Some plain words here" "normal"
    (by decide) (by decide) (by decide)

/-- C4 (amended).  With the remote evaluation service unavailable, the
evaluator computes 2+5 to the answer 7 and (10+5)/3 to the answer 5
through the local fallback, and 10/0 deterministically yields a success
whose answer is the string Infinity: division by zero is not
special-cased and Infinity is leaked to the caller as the answer. -/
theorem c4_arithmetic_eval (mathjs : String → Option String)
    (hdown : ∀ e, mathjs e = none) :
    evalAnswer (evaluateMathExpression mathjs "2+5") = some "7" ∧
    evalAnswer (evaluateMathExpression mathjs "(10+5)/3") = some "5" ∧
    evalAnswer (evaluateMathExpression mathjs "10/0") = some "Infinity" := by
  refine ⟨?_, ?_, ?_⟩ <;>
  · simp only [evaluateMathExpression, hdown]
    decide

/-- Closed instance of the C4 theorem. -/
theorem c4_arithmetic_eval_witness :
    evalAnswer (evaluateMathExpression (fun _ => none) "2+5") = some "7" ∧
    evalAnswer (evaluateMathExpression (fun _ => none) "(10+5)/3") = some "5" :=
  ⟨(c4_arithmetic_eval (fun _ => none) (fun _ => rfl)).1,
   (c4_arithmetic_eval (fun _ => none) (fun _ => rfl)).2.1⟩

/-- C5 (amended).  In both local evaluators the whitelist check runs
before evaluation, so every string actually handed to the evaluation
engine consists only of whitelisted arithmetic characters: safeEval
rejects non-whitelisted input outright, while safeEvaluateMath first
strips the offending characters and evaluates only the whitelisted
remainder. -/
theorem c5_whitelist_before_eval (s : String) :
    (∀ t, safeEvaluateMathEvalStr s = some t → t.data.all wlWithWs = true) ∧
    (∀ t, safeEvalInput s = some t → t.data.all wlNoWs = true) := by
  constructor
  · intro t ht
    unfold safeEvaluateMathEvalStr at ht
    split_ifs at ht with h1 h2
    · injection ht with ht
      subst ht
      exact h1.2
  · intro t ht
    unfold safeEvalInput at ht
    split_ifs at ht with h1
    · injection ht with ht
      subst ht
      exact h1.2

/-- Closed instance of the C5 theorem. -/
theorem c5_whitelist_before_eval_witness :
    ("2+5" : String).data.all wlWithWs = true ∧
    ("2+5" : String).data.all wlNoWs = true :=
  ⟨(c5_whitelist_before_eval "2+5").1 "2+5" (by decide),
   (c5_whitelist_before_eval "2+5").2 "2+5" (by decide)⟩

set_option maxHeartbeats 1000000 in
/-- Fallback solution content is always a success record. -/
theorem genSol_isOk (e : String) : (generateMathExpressionSolution e).isOk = true := by
  unfold generateMathExpressionSolution
  cases h : safeEval e with
  | none => rfl
  | some v => rfl

/-- Case shape of solveMathExpression: a success wrapping solveData or a
rethrown failure. -/
theorem solve_shape (m : String → Option String) (e : String) :
    (∃ res, solveMathExpression m e = .ok (solveData res)) ∨
    (∃ msg, solveMathExpression m e = .error msg) := by
  rw [solveMathExpression.eq_def]
  cases evaluateMathExpression m e with
  | ok res => exact Or.inl ⟨res, rfl⟩
  | error msg => exact Or.inr ⟨_, rfl⟩

/-- Injectivity of the success constructor at the result type. -/
theorem exceptOkInj (x y : GenResult)
    (h : (Except.ok x : Except String GenResult) = Except.ok y) : x = y := by
  injection h

/-- Propagation of an evaluation failure through solveMathExpression. -/
theorem solve_err (m : String → Option String) (e msg : String)
    (hm : evaluateMathExpression m e = .error msg) :
    solveMathExpression m e = .error ("Failed to solve math expression: " ++ msg) := by
  rw [solveMathExpression.eq_def, hm]

/-- A non-raising solveMathExpression result is always a success
record. -/
theorem solve_ok_isOk (m : String → Option String) (e : String) (r : GenResult)
    (h : solveMathExpression m e = .ok r) : r.isOk = true := by
  rcases solve_shape m e with ⟨res, hs⟩ | ⟨msg, hs⟩
  · have h2 : solveData res = r := exceptOkInj _ _ (hs.symm.trans h)
    rw [← h2]
    rfl
  · exact nomatch hs.symm.trans h

/-- Sentinel answer of the fallback when the guarded evaluator yields no
value. -/
theorem genSol_answer (e : String) (hse : safeEval e = none) :
    (generateMathExpressionSolution e).mathAnswer = some sentinelAnswer := by
  unfold generateMathExpressionSolution
  rw [hse]
  rfl

/-- Dispatch of the orchestrator on the arithmetic-expression branch. -/
theorem genAI_arith (env : Env) (topic context : String)
    (hc : checkMathExpression topic = true) :
    generateAIContentT env topic context "math" =
      (match solveMathExpression env.mathjs topic with
       | .ok r => r
       | .error _ => generateMathExpressionSolution topic,
       false) := by
  simp only [generateAIContentT, hc, beq_self_eq_true, Bool.and_true, if_true]

/-- C10.  In math mode, a topic classified as an arithmetic expression
never produces an error; and when the remote service and both local
evaluations fail, the success carries the fixed sentinel answer. -/
theorem c10_math_expression_never_errors :
    (∀ (env : Env) (topic context : String), checkMathExpression topic = true →
      (generateAIContent env topic context "math").isOk = true) ∧
    (∀ (env : Env) (topic context : String), checkMathExpression topic = true →
      (∀ e, env.mathjs e = none) →
      evalOk (safeEvaluateMath topic) = false →
      safeEval topic = none →
      (generateAIContent env topic context "math").mathAnswer = some sentinelAnswer) := by
  constructor
  · intro env topic context hc
    unfold generateAIContent
    rw [genAI_arith env topic context hc]
    cases hs : solveMathExpression env.mathjs topic with
    | ok r => exact solve_ok_isOk env.mathjs topic r hs
    | error m => exact genSol_isOk topic
  · intro env topic context hc hdown hloc hse
    unfold generateAIContent
    rw [genAI_arith env topic context hc]
    obtain ⟨m, hq⟩ : ∃ m, safeEvaluateMath topic = .error m := by
      cases hq : safeEvaluateMath topic with
      | ok r => rw [hq] at hloc; exact absurd hloc (by simp [evalOk])
      | error m => exact ⟨m, rfl⟩
    have hev : ∃ m2, evaluateMathExpression env.mathjs topic = .error m2 := by
      unfold evaluateMathExpression
      by_cases hz : mathjsNormalize topic = ""
      · rw [if_pos hz, hq]
        exact ⟨_, rfl⟩
      · rw [if_neg hz, hdown, hq]
        exact ⟨_, rfl⟩
    obtain ⟨m2, hm⟩ := hev
    rw [solve_err env.mathjs topic m2 hm]
    exact genSol_answer topic hse

/-- Closed instance of the C10 theorem at a malformed arithmetic
expression on which every evaluator fails. -/
theorem c10_math_expression_never_errors_witness :
    (generateAIContent envNoProviders "2+" "" "math").isOk = true ∧
    (generateAIContent envNoProviders "2+" "" "math").mathAnswer = some sentinelAnswer :=
  ⟨c10_math_expression_never_errors.1 envNoProviders "2+" "" (by decide),
   c10_math_expression_never_errors.2 envNoProviders "2+" "" (by decide)
     (fun _ => rfl) (by decide) (by decide)⟩

/-- The core body of the retriever never raises. -/
theorem wikiCore_never_error (env : WikiEnv) (topic : String) (e : AxiosFailure)
    (h : fetchWikipediaDataCore env topic = .error e) : False := by
  unfold fetchWikipediaDataCore at h
  split at h
  · exact nomatch h
  · split at h
    · split at h <;> exact nomatch h
    · exact nomatch h

/-- An empty string has length zero and conversely. -/
theorem strLength_eq_zero (s : String) (h : s.length = 0) : s = "" := by
  cases s with
  | mk data =>
    cases data with
    | nil => rfl
    | cons c cs => exact absurd h (by simp [String.length])

/-- C6.  The retriever never lets an exception escape: its core body
always returns normally with the very result the catch-wrapped function
produces; when the direct lookup, the search-based retry and the REST
summary fallback all fail to yield a non-empty extract, it returns the
absent record with its recorded reason; and an empty (or all-whitespace)
topic returns the absent record for an empty topic. -/
theorem c6_retriever_total :
    (∀ (env : WikiEnv) (topic : String),
      fetchWikipediaDataCore env topic = .ok (fetchWikipediaData env topic)) ∧
    (∀ (env : WikiEnv) (topic : String),
      jsTrim topic ≠ "" →
      fetchExtractFromMediaWiki env topic = none →
      (∀ f, searchWikipediaTopic env topic = some f →
        fetchExtractFromMediaWiki env f = none) →
      (∀ t rd, env.rest t = .ok (some rd) → rd.extract = "") →
      fetchWikipediaData env topic =
        .absent "Topic not found on Wikipedia or no extract available") ∧
    (∀ (env : WikiEnv) (topic : String), jsTrim topic = "" →
      fetchWikipediaData env topic = .absent "Empty topic provided") := by
  refine ⟨?_, ?_, ?_⟩
  · intro env topic
    unfold fetchWikipediaData
    cases h : fetchWikipediaDataCore env topic with
    | ok r => rfl
    | error e => exact absurd h (fun h2 => wikiCore_never_error env topic e h2)
  · intro env topic h0 h1 h2 h3
    have hres : ∀ t, restFallback env t =
        .absent "Topic not found on Wikipedia or no extract available" := by
      intro t
      unfold restFallback
      cases hr : env.rest t with
      | error e => rfl
      | ok o =>
        cases o with
        | none => rfl
        | some rd => simp [h3 t rd hr]
    have hresolve : (wikiResolve env topic).2 = none := by
      unfold wikiResolve
      rw [h1]
      cases hs : searchWikipediaTopic env topic with
      | none => rfl
      | some f => simpa using h2 f hs
    have hcond : ¬(topic = "" ∨ (jsTrim topic).length = 0) := by
      rintro (rfl | hl)
      · exact h0 rfl
      · exact h0 (strLength_eq_zero _ hl)
    have hcore : fetchWikipediaDataCore env topic =
        .ok (restFallback env (wikiResolve env topic).1) := by
      unfold fetchWikipediaDataCore
      rw [if_neg hcond, hresolve]
    unfold fetchWikipediaData
    rw [hcore]
    exact hres _
  · intro env topic h0
    have hcond : topic = "" ∨ (jsTrim topic).length = 0 := Or.inr (by rw [h0]; rfl)
    unfold fetchWikipediaData fetchWikipediaDataCore
    rw [if_pos hcond]

/-- Closed instance of the C6 theorem at a retriever environment in
which every HTTP call fails. -/
theorem c6_retriever_total_witness :
    fetchWikipediaData wenvDown "Python" =
      .absent "Topic not found on Wikipedia or no extract available" ∧
    fetchWikipediaData wenvDown " " = .absent "Empty topic provided" :=
  ⟨c6_retriever_total.2.1 wenvDown "Python" (by decide) (by decide)
      (fun f hf => nomatch hf) (fun t rd hr => nomatch hr),
   c6_retriever_total.2.2 wenvDown " " (by decide)⟩

/-- On a non-whitespace character the two whitelist classes agree. -/
theorem wl_noWs_char (c : Char) (h : isJsWs c = false) : wlWithWs c = wlNoWs c := by
  unfold wlWithWs wlNoWs
  rw [h]
  simp

/-- Over whitespace-free characters the two whitelist tests agree. -/
theorem all_with_eq_noWs (l : List Char) (h : ∀ c ∈ l, isJsWs c = false) :
    l.all wlWithWs = l.all wlNoWs := by
  induction l with
  | nil => rfl
  | cons c cs ih =>
    rw [List.all_cons, List.all_cons, wl_noWs_char c (h c (List.mem_cons_self c cs)),
      ih (fun x hx => h x (List.mem_cons_of_mem c hx))]

/-- Under the whitelist pattern, the equality sign cannot occur, so the
extended operator test of the source agrees with the four-operator
test. -/
theorem any_opExt_eq (l : List Char) (h : l.all wlNoWs = true) :
    (l.any fun c => isOpChar c || c = '=') = l.any isOpChar := by
  induction l with
  | nil => rfl
  | cons c cs ih =>
    rw [List.all_cons, Bool.and_eq_true] at h
    rw [List.any_cons, List.any_cons, ih h.2]
    have hc : (c = '=' : Bool) = false := by
      by_cases hc2 : c = '='
      · subst hc2; exact absurd h.1 (by decide)
      · simp [hc2]
    rw [hc, Bool.or_false]

/-- Side fact: the aiService-local duplicate isMathExpression, which no
caller reaches (the orchestrator imports the mathService classifier),
agrees pointwise with the spec predicate of digits, the four operators,
parentheses and the dot after whitespace removal, with at least one
operator and one digit. -/
theorem ai_local_classifier_matches_spec :
    (∀ t, isMathExpressionAi t = isArithmeticExpressionSpec t) ∧
    isMathExpressionAi "2 + 5" = true ∧
    isMathExpressionAi "What is Python?" = false := by
  refine ⟨?_, by decide, by decide⟩
  intro t
  have hws : ∀ c ∈ (removeWs t).data, isJsWs c = false := by
    intro c hc
    have h2 := List.of_mem_filter (p := fun c => !isJsWs c) hc
    simpa using h2
  unfold isMathExpressionAi isArithmeticExpressionSpec
  dsimp only
  rw [all_with_eq_noWs _ hws]
  cases hall : (removeWs t).data.all wlNoWs with
  | false => simp [hall]
  | true => simp [hall, any_opExt_eq _ hall]

/-- The containment test holds reflexively. -/
theorem jsIncludesB_refl (s : String) : jsIncludesB s s = true := by
  unfold jsIncludesB
  exact decide_eq_true (List.infix_refl s.data)

/-- Transitivity of the containment test. -/
theorem jsIncludesB_trans (s t u : String) (h1 : jsIncludesB t u = true)
    (h2 : jsIncludesB s t = true) : jsIncludesB s u = true := by
  unfold jsIncludesB at *
  exact decide_eq_true ((of_decide_eq_true h1).trans (of_decide_eq_true h2))

/-- C9 (amended).  A topic whose lowercase trimmed form contains the
alias ai or ml, matches no mock key exactly or by mutual containment,
and does not contain the earlier aliases ww2 or world war 2, maps to the
pre-authored machine learning entry rather than the generic template. -/
theorem c9_alias_machine_learning (topic : String)
    (hai : jsIncludesB (jsTrim (strLower topic)) "ai" = true ∨
           jsIncludesB (jsTrim (strLower topic)) "ml" = true)
    (hkeys : ∀ k ∈ mockKeys,
      jsIncludesB (jsTrim (strLower topic)) k = false ∧
      jsIncludesB k (jsTrim (strLower topic)) = false)
    (hww2 : jsIncludesB (jsTrim (strLower topic)) "ww2" = false)
    (hww22 : jsIncludesB (jsTrim (strLower topic)) "world war 2" = false) :
    findMatchingTopic topic = some "machine learning" ∧
    generateMockContent topic "normal" = .ok (.content machineLearningMock.normal) := by
  set tl := jsTrim (strLower topic) with htl
  have hne : ∀ k ∈ mockKeys, (tl == k) = false := by
    intro k hk
    by_cases h : tl = k
    · subst h
      exact absurd (jsIncludesB_refl tl) (by simp [(hkeys tl hk).1])
    · simp [h]
  have hcontainNone : ∀ v vk, jsIncludesB v vk = true → vk ∈ mockKeys →
      jsIncludesB tl v = false := by
    intro v vk hvk hk
    cases hx : jsIncludesB tl v with
    | false => rfl
    | true => exact absurd (jsIncludesB_trans tl v vk hvk hx) (by simp [(hkeys vk hk).1])
  have hfind : findMatchingTopic topic = some "machine learning" := by
    unfold findMatchingTopic
    rw [← htl]
    dsimp only
    have hexact : mockTable.find? (fun kv => kv.1 == tl) = none := by
      rw [List.find?_eq_none]
      intro kv hkv hb
      have hmem : kv.1 ∈ mockKeys := by
        rw [← mockTable_keys]
        exact List.mem_map_of_mem Prod.fst hkv
      have heq : kv.1 = tl := by simpa using hb
      have hne2 := hne kv.1 hmem
      rw [heq] at hne2
      simp at hne2
    have hcont : mockKeys.find?
        (fun k => jsIncludesB tl k || jsIncludesB k tl) = none := by
      rw [List.find?_eq_none]
      intro k hk
      simp [(hkeys k hk).1, (hkeys k hk).2]
    rw [hexact, hcont]
    have p1 : (jsIncludesB tl "python programming" || tl == "python") = false := by
      rw [hcontainNone "python programming" "python" (by decide) (by decide),
        hne "python" (by decide)]
      rfl
    have p2 : (jsIncludesB tl "javascript programming" || tl == "javascript") = false := by
      rw [hcontainNone "javascript programming" "javascript" (by decide) (by decide),
        hne "javascript" (by decide)]
      rfl
    have p3 : (jsIncludesB tl "java programming" || tl == "java") = false := by
      rw [hcontainNone "java programming" "java" (by decide) (by decide),
        hne "java" (by decide)]
      rfl
    have p4 : (jsIncludesB tl "biology science" || tl == "biology") = false := by
      rw [hcontainNone "biology science" "biology" (by decide) (by decide),
        hne "biology" (by decide)]
      rfl
    have p5 : (jsIncludesB tl "chemistry science" || tl == "chemistry") = false := by
      rw [hcontainNone "chemistry science" "chemistry" (by decide) (by decide),
        hne "chemistry" (by decide)]
      rfl
    have p6 : (jsIncludesB tl "physics science" || tl == "physics") = false := by
      rw [hcontainNone "physics science" "physics" (by decide) (by decide),
        hne "physics" (by decide)]
      rfl
    have p7 : (jsIncludesB tl "calculus math" || tl == "calculus") = false := by
      rw [hcontainNone "calculus math" "calculus" (by decide) (by decide),
        hne "calculus" (by decide)]
      rfl
    have p8 : (jsIncludesB tl "algebra math" || tl == "algebra") = false := by
      rw [hcontainNone "algebra math" "algebra" (by decide) (by decide),
        hne "algebra" (by decide)]
      rfl
    have p9 : (jsIncludesB tl "ww2" || tl == "world war ii") = false := by
      rw [hww2, hne "world war ii" (by decide)]
      rfl
    have p10 : (jsIncludesB tl "world war 2" || tl == "world war ii") = false := by
      rw [hww22, hne "world war ii" (by decide)]
      rfl
    unfold variationsList
    rw [List.find?_cons_of_neg _ (by simp [p1]),
      List.find?_cons_of_neg _ (by simp [p2]),
      List.find?_cons_of_neg _ (by simp [p3]),
      List.find?_cons_of_neg _ (by simp [p4]),
      List.find?_cons_of_neg _ (by simp [p5]),
      List.find?_cons_of_neg _ (by simp [p6]),
      List.find?_cons_of_neg _ (by simp [p7]),
      List.find?_cons_of_neg _ (by simp [p8]),
      List.find?_cons_of_neg _ (by simp [p9]),
      List.find?_cons_of_neg _ (by simp [p10])]
    cases hml : jsIncludesB tl "ml" with
    | true =>
      rw [List.find?_cons_of_pos _ (by simp [hml])]
    | false =>
      have hai2 : jsIncludesB tl "ai" = true := by
        rcases hai with h | h
        · exact h
        · exact absurd h (by simp [hml])
      rw [List.find?_cons_of_neg _
          (by simp [hml, hne "machine learning" (by decide)]),
        List.find?_cons_of_pos _ (by simp [hai2])]
  refine ⟨hfind, ?_⟩
  unfold generateMockContent mockFromMatched
  rw [hfind]
  rfl

/-- Closed instance of the C9 theorem at the topic Spain, whose
lowercase form contains ai. -/
theorem c9_alias_machine_learning_witness :
    findMatchingTopic "Spain" = some "machine learning" ∧
    generateMockContent "Spain" "normal" = .ok (.content machineLearningMock.normal) :=
  c9_alias_machine_learning "Spain" (Or.inl (by decide)) (by decide)
    (by decide) (by decide)

/-- Every pre-authored normal-mode entry of the mock table satisfies the
output invariant. -/
theorem mockNormal_good_all :
    mockTable.all (fun kv => goodNormalB (.ok (.content kv.2.normal))) = true := by
  decide

/-- The final summary-padding loop does nothing once three entries are
present. -/
theorem sumTail_ge3 (cleaned : String) (fuel : Nat) (acc : List String)
    (h : ¬ acc.length < 3) : sumTail cleaned fuel acc = acc := by
  cases fuel with
  | zero => rfl
  | succ n =>
    unfold sumTail
    rw [if_neg h]

/-- The quiz-filling loop does nothing once three items are present. -/
theorem quizFill_ge3 (topic cleaned : String) (fuel : Nat) (q : List QuizItem)
    (h : ¬ q.length < 3) : quizFill topic cleaned fuel q = q := by
  cases fuel with
  | zero => rfl
  | succ n =>
    unfold quizFill
    rw [if_neg h]

/-- The quiz-padding step does nothing once three items are present. -/
theorem quizPad_ge3 (topic : String) (summary : List String) (q : List QuizItem)
    (h : ¬ q.length < 3) : quizPad topic summary q = q := by
  unfold quizPad
  rw [if_neg h]

/-- Prefixes survive appending on the right. -/
theorem startsWithB_app (p s x : String) (h : startsWithB s p = true) :
    startsWithB (s ++ x) p = true := by
  unfold startsWithB at *
  refine decide_eq_true ?_
  rw [String.data_append]
  exact (of_decide_eq_true h).trans (List.prefix_append _ _)

/-- The first synthesiser quiz item is well formed. -/
theorem quizItem1_ok (topic fp : String) :
    quizItemOkB (synthQuizItem1 topic fp) = true := by
  unfold quizItemOkB synthQuizItem1
  dsimp only
  rw [startsWithB_app "A)" "A) " _ (by decide)]
  rfl

/-- The second synthesiser quiz item is well formed. -/
theorem quizItem2_ok (topic mp : String) :
    quizItemOkB (synthQuizItem2 topic mp) = true := by
  unfold quizItemOkB synthQuizItem2
  dsimp only
  rw [startsWithB_app "B)" "B) " _ (by decide)]
  rfl

/-- The third synthesiser quiz item is well formed. -/
theorem quizItem3_ok (topic lp : String) :
    quizItemOkB (synthQuizItem3 topic lp) = true := by
  unfold quizItemOkB synthQuizItem3
  dsimp only
  rw [startsWithB_app "C)" "C) " _ (by decide)]
  rfl

/-- Indexing with a default inside the list bound yields a member. -/
theorem getD_mem_of_lt (l : List String) (i : Nat) (d : String)
    (h : i < l.length) : (l.get? i).getD d ∈ l := by
  rw [List.get?_eq_get h]
  exact List.get_mem l i h

/-- Every qualifying sentence is strictly longer than 30 characters. -/
theorem qualSentences_len (context s : String) (h : s ∈ qualSentences context) :
    30 < s.length := by
  unfold qualSentences at h
  have h2 := List.of_mem_filter h
  simp only [Bool.and_eq_true, decide_eq_true_eq] at h2
  exact h2.1

/-- Strings longer than 30 characters are nonempty. -/
theorem ne_empty_of_len30 (s : String) (h : 30 < s.length) : s ≠ "" := by
  intro he
  rw [he] at h
  exact absurd h (by decide)

/-- Normal-mode dispatch of the mock generator, unfolded. -/
theorem mockFromMatched_normal (matched : Option String) (topic : String) :
    mockFromMatched matched topic "normal" =
      match matched.bind lookupMock with
      | some td => .ok (.content td.normal)
      | none => .ok (.content (genericNormal topic)) := rfl

/-- Normal-mode synthesiser output, unfolded. -/
theorem genWiki_normal_eq (rand : Nat) (topic context : String) :
    genFromWikipediaContext rand topic context "normal" =
      .ok (.content
        { summary := synthSummary (cleanedOf context) (qualSentences context),
          payload := .quiz (synthQuiz topic (cleanedOf context)
            (qualSentences context)
            (synthSummary (cleanedOf context) (qualSentences context))),
          studyTip := "To effectively study " ++ topic ++
            ", review the key points from the Wikipedia article and focus on understanding the main concepts and their relationships." }) := rfl

/-- Summary of the synthesiser on three or more qualifying sentences:
the first three, truncated. -/
theorem synthSummary_of_ge3 (cleaned : String) (sentences : List String)
    (h : 3 ≤ sentences.length) :
    synthSummary cleaned sentences = (sentences.take 3).map trunc150 := by
  have hb : synthSummaryBase cleaned sentences = (sentences.take 3).map trunc150 := by
    unfold synthSummaryBase
    rw [if_pos h]
  have hlb : ((sentences.take 3).map trunc150).length = 3 := by
    rw [List.length_map, List.length_take]
    exact Nat.min_eq_left h
  unfold synthSummary
  rw [hb, sumTail_ge3 cleaned 3 ((sentences.take 3).map trunc150)
      (by rw [hlb]; exact lt_irrefl 3),
    List.take_of_length_le (le_of_eq hlb)]

/-- C1 (amended).  Every normal-mode output of the mock library, and
every normal-mode output of the context synthesiser on a context with at
least three qualifying sentences, is a success whose summary has exactly
3 entries and whose quiz has exactly 3 well-formed items; shorter
contexts and validated provider responses escape the invariant, as the
counterexample records. -/
theorem c1_normal_invariant :
    (∀ topic, goodNormalB (generateMockContent topic "normal") = true) ∧
    (∀ rand topic context, 3 ≤ (qualSentences context).length →
      goodNormalB (genFromWikipediaContext rand topic context "normal") = true) := by
  constructor
  · intro topic
    have hg : generateMockContent topic "normal" =
        mockFromMatched (findMatchingTopic topic) topic "normal" := rfl
    rw [hg, mockFromMatched_normal]
    cases hm : findMatchingTopic topic with
    | none => rfl
    | some k =>
      cases hl : lookupMock k with
      | none =>
        have hb : (some k).bind lookupMock = none := hl
        rw [hb]
        rfl
      | some td =>
        have hb : (some k).bind lookupMock = some td := hl
        rw [hb]
        have hfind : ∃ kv, mockTable.find? (fun kv => kv.1 == k) = some kv ∧ kv.2 = td := by
          unfold lookupMock at hl
          cases hf : mockTable.find? (fun kv => kv.1 == k) with
          | none => rw [hf] at hl; exact absurd hl (by simp)
          | some kv =>
            rw [hf] at hl
            exact ⟨kv, rfl, by simpa using hl⟩
        obtain ⟨kv, hf, hkv⟩ := hfind
        have hmem : kv ∈ mockTable := List.mem_of_find?_eq_some hf
        have hgood := List.all_eq_true.mp mockNormal_good_all kv hmem
        rw [← hkv]
        simpa using hgood
  · intro rand topic context h
    rw [genWiki_normal_eq]
    have h0 : 0 < (qualSentences context).length :=
      lt_of_lt_of_le (by decide) h
    have hhalf : (qualSentences context).length / 2 < (qualSentences context).length :=
      Nat.div_lt_self h0 (by decide)
    have hmin : min 2 ((qualSentences context).length - 1) < (qualSentences context).length :=
      lt_of_le_of_lt (min_le_right _ _) (Nat.sub_lt h0 (by decide))
    have m1 := getD_mem_of_lt (qualSentences context) 0
      (jsSubstring (cleanedOf context) 0 200) h0
    have m2 := getD_mem_of_lt (qualSentences context) ((qualSentences context).length / 2)
      (jsSubstring (cleanedOf context) 200 400) hhalf
    have m3 := getD_mem_of_lt (qualSentences context)
      (min 2 ((qualSentences context).length - 1))
      (jsSubstring (cleanedOf context) 400 600) hmin
    have L1 := qualSentences_len context _ m1
    have L2 := qualSentences_len context _ m2
    have L3 := qualSentences_len context _ m3
    have hbase : synthQuizBase topic (cleanedOf context) (qualSentences context) =
        [synthQuizItem1 topic (((qualSentences context).get? 0).getD
            (jsSubstring (cleanedOf context) 0 200)),
         synthQuizItem2 topic (((qualSentences context).get?
            ((qualSentences context).length / 2)).getD
            (jsSubstring (cleanedOf context) 200 400)),
         synthQuizItem3 topic (((qualSentences context).get?
            (min 2 ((qualSentences context).length - 1))).getD
            (jsSubstring (cleanedOf context) 400 600))] := by
      unfold synthQuizBase
      dsimp only
      rw [if_pos ⟨ne_empty_of_len30 _ L1, lt_trans (by decide) L1⟩,
        if_pos ⟨ne_empty_of_len30 _ L2, lt_trans (by decide) L2⟩,
        if_pos ⟨ne_empty_of_len30 _ L3, lt_trans (by decide) L3⟩]
      rfl
    have hquiz : synthQuiz topic (cleanedOf context) (qualSentences context)
        (synthSummary (cleanedOf context) (qualSentences context)) =
        synthQuizBase topic (cleanedOf context) (qualSentences context) := by
      unfold synthQuiz
      rw [quizFill_ge3 topic (cleanedOf context) 3
          (synthQuizBase topic (cleanedOf context) (qualSentences context))
          (by rw [hbase]; exact lt_irrefl 3),
        quizPad_ge3 topic (synthSummary (cleanedOf context) (qualSentences context))
          (synthQuizBase topic (cleanedOf context) (qualSentences context))
          (by rw [hbase]; exact lt_irrefl 3)]
    have hslen : (synthSummary (cleanedOf context) (qualSentences context)).length = 3 := by
      rw [synthSummary_of_ge3 _ _ h, List.length_map, List.length_take]
      exact Nat.min_eq_left h
    unfold goodNormalB
    dsimp only
    rw [hslen, hquiz, hbase]
    simp [quizItem1_ok, quizItem2_ok, quizItem3_ok]

/-- Closed instance of the C1 theorem at a topic outside the mock table
and at a three-sentence context. -/
theorem c1_normal_invariant_witness :
    3 ≤ (qualSentences ctxThreeSentences).length ∧
    goodNormalB (generateMockContent "Cats" "normal") = true ∧
    goodNormalB (genFromWikipediaContext 0 "Tea" ctxThreeSentences "normal") = true :=
  ⟨by decide, c1_normal_invariant.1 "Cats",
   c1_normal_invariant.2 0 "Tea" ctxThreeSentences (by decide)⟩

/-- Nonempty strings have nonempty character lists. -/
theorem data_ne_nil (w : String) (h : w ≠ "") : w.data ≠ [] := by
  intro hd
  exact h (String.ext hd)

/-- Splitting a whitespace-free tail after a nonempty accumulator. -/
theorem splitWsAux_nows (l : List Char) : ∀ acc,
    (∀ c ∈ l, isJsWs c = false) → acc ≠ [] ∨ l ≠ [] →
    splitWsAux l acc = [⟨acc.reverse ++ l⟩] := by
  induction l with
  | nil =>
    intro acc h hne
    cases acc with
    | nil => rcases hne with h1 | h1 <;> exact absurd rfl h1
    | cons a as =>
      show [(⟨(a :: as).reverse⟩ : String)] = [⟨(a :: as).reverse ++ []⟩]
      rw [List.append_nil]
  | cons c cs ih =>
    intro acc h hne
    have hc : isJsWs c = false := h c (List.mem_cons_self c cs)
    unfold splitWsAux
    rw [if_neg (by rw [hc]; exact Bool.false_ne_true)]
    rw [ih (c :: acc) (fun x hx => h x (List.mem_cons_of_mem c hx)) (Or.inl (by simp))]
    rw [List.reverse_cons, List.append_assoc]
    rfl

/-- A whitespace-free suffix contributes at most one word. -/
theorem splitWsAux_nows_len (cs : List Char) (acc : List Char)
    (hcs : ∀ c ∈ cs, isJsWs c = false) : (splitWsAux cs acc).length ≤ 1 := by
  cases cs with
  | nil =>
    cases acc with
    | nil => exact Nat.zero_le 1
    | cons a as => exact le_refl 1
  | cons c cs2 =>
    rw [splitWsAux_nows (c :: cs2) acc hcs (Or.inr (by simp))]
    exact le_refl 1

/-- One leading character followed by a whitespace-free tail yields at
most two words. -/
theorem splitWsAux_cons_len (x : Char) (cs acc : List Char)
    (hcs : ∀ c ∈ cs, isJsWs c = false) :
    (splitWsAux (x :: cs) acc).length ≤ 2 := by
  unfold splitWsAux
  cases hx : isJsWs x with
  | false =>
    rw [if_neg Bool.false_ne_true]
    exact le_trans (splitWsAux_nows_len cs (x :: acc) hcs) (by decide)
  | true =>
    rw [if_pos rfl]
    cases acc with
    | nil =>
      exact le_trans (splitWsAux_nows_len cs [] hcs) (by decide)
    | cons a as =>
      show ((⟨(a :: as).reverse⟩ : String) :: splitWsAux cs []).length ≤ 2
      rw [List.length_cons]
      exact Nat.succ_le_succ (splitWsAux_nows_len cs [] hcs)

/-- Every word the splitter produces is nonempty and whitespace-free. -/
theorem splitWsAux_mem (l : List Char) : ∀ acc,
    (∀ c ∈ acc, isJsWs c = false) →
    ∀ w ∈ splitWsAux l acc, w ≠ "" ∧ ∀ c ∈ w.data, isJsWs c = false := by
  induction l with
  | nil =>
    intro acc hacc w hw
    cases acc with
    | nil => exact absurd hw (List.not_mem_nil w)
    | cons a as =>
      have hw2 : w = ⟨(a :: as).reverse⟩ :=
        List.mem_singleton.mp (show w ∈ [(⟨(a :: as).reverse⟩ : String)] from hw)
      constructor
      · rw [hw2]
        intro he
        have hdl : ((a :: as).reverse : List Char) = [] := congrArg String.data he
        simp at hdl
      · intro c hc
        rw [hw2] at hc
        exact hacc c (List.mem_reverse.mp hc)
  | cons x xs ih =>
    intro acc hacc w hw
    unfold splitWsAux at hw
    cases hx : isJsWs x with
    | false =>
      rw [hx, if_neg Bool.false_ne_true] at hw
      refine ih (x :: acc) ?_ w hw
      intro c hc
      rcases List.mem_cons.mp hc with h | h
      · rw [h]; exact hx
      · exact hacc c h
    | true =>
      rw [hx, if_pos rfl] at hw
      cases acc with
      | nil =>
        exact ih [] (fun c hc => absurd hc (List.not_mem_nil c)) w hw
      | cons a as =>
        have hw2 : w ∈ (⟨(a :: as).reverse⟩ : String) :: splitWsAux xs [] := hw
        rcases List.mem_cons.mp hw2 with h | h
        · constructor
          · rw [h]
            intro he
            have hdl : ((a :: as).reverse : List Char) = [] := congrArg String.data he
            simp at hdl
          · intro c hc
            rw [h] at hc
            exact hacc c (List.mem_reverse.mp hc)
        · exact ih [] (fun c hc => absurd hc (List.not_mem_nil c)) w h

/-- A non-whitespace character is pushed onto the accumulator. -/
theorem splitWsAux_step (c : Char) (cs acc : List Char) (hc : isJsWs c = false) :
    splitWsAux (c :: cs) acc = splitWsAux cs (c :: acc) := by
  cases acc with
  | nil =>
    rw [splitWsAux.eq_3]
    rw [if_neg (by rw [hc]; exact Bool.false_ne_true)]
  | cons a as =>
    rw [splitWsAux.eq_4 _ _ _ (by simp)]
    rw [if_neg (by rw [hc]; exact Bool.false_ne_true)]

/-- The splitter walks over a whitespace-free prefix, accumulating it. -/
theorem splitWsAux_append_nows (l1 : List Char) : ∀ l2 acc,
    (∀ c ∈ l1, isJsWs c = false) →
    splitWsAux (l1 ++ l2) acc = splitWsAux l2 (l1.reverse ++ acc) := by
  induction l1 with
  | nil => intro l2 acc h; rfl
  | cons c cs ih =>
    intro l2 acc h
    have hc : isJsWs c = false := h c (List.mem_cons_self c cs)
    rw [List.cons_append]
    rw [splitWsAux_step c (cs ++ l2) acc hc]
    rw [ih l2 (c :: acc) (fun x hx => h x (List.mem_cons_of_mem c hx))]
    rw [List.reverse_cons, List.append_assoc]
    rfl

/-- A whitespace character after a nonempty accumulator closes the
current word. -/
theorem splitWsAux_ws_cons (x : Char) (l acc : List Char) (hx : isJsWs x = true)
    (hacc : acc ≠ []) :
    splitWsAux (x :: l) acc = ⟨acc.reverse⟩ :: splitWsAux l [] := by
  cases acc with
  | nil => exact absurd rfl hacc
  | cons a as =>
    rw [splitWsAux.eq_4 _ _ _ (by simp)]
    rw [if_pos hx]

/-- Splitting a space-join of nonempty whitespace-free words returns the
word list. -/
theorem splitWs_join (ws : List String)
    (h : ∀ w ∈ ws, w ≠ "" ∧ ∀ c ∈ w.data, isJsWs c = false) :
    splitWs (jsJoinSpace ws) = ws := by
  induction ws with
  | nil => rfl
  | cons w tail ih =>
    cases tail with
    | nil =>
      show splitWs w = [w]
      rcases h w (List.mem_cons_self w []) with ⟨hne, hchars⟩
      unfold splitWs
      rw [splitWsAux_nows w.data [] hchars (Or.inr (data_ne_nil w hne))]
      rw [List.reverse_nil, List.nil_append]
    | cons w2 t2 =>
      rcases h w (List.mem_cons_self w (w2 :: t2)) with ⟨hne, hchars⟩
      have htail : ∀ x ∈ w2 :: t2, x ≠ "" ∧ ∀ c ∈ x.data, isJsWs c = false :=
        fun x hx => h x (List.mem_cons_of_mem w hx)
      show splitWs (w ++ " " ++ jsJoinSpace (w2 :: t2)) = w :: w2 :: t2
      unfold splitWs
      have hdata : (w ++ " " ++ jsJoinSpace (w2 :: t2)).data =
          w.data ++ (' ' :: (jsJoinSpace (w2 :: t2)).data) := by
        rw [String.data_append, String.data_append, List.append_assoc]
        rfl
      rw [hdata]
      rw [splitWsAux_append_nows w.data (' ' :: (jsJoinSpace (w2 :: t2)).data) [] hchars]
      rw [List.append_nil]
      rw [splitWsAux_ws_cons ' ' _ _ (by decide)
          (fun hr => data_ne_nil w hne (List.reverse_eq_nil_iff.mp hr))]
      rw [List.reverse_reverse]
      rw [show splitWsAux (jsJoinSpace (w2 :: t2)).data [] =
          splitWs (jsJoinSpace (w2 :: t2)) from rfl, ih htail]

/-- Capitalising the first character of a whitespace-free word yields at
most two words on resplitting. -/
theorem splitWs_capFirst (w : String) (hch : ∀ c ∈ w.data, isJsWs c = false) :
    (splitWs (capitalizeFirst w)).length ≤ 2 := by
  unfold capitalizeFirst
  cases hd : w.data with
  | nil => decide
  | cons u cs =>
    have hcs : ∀ c ∈ cs, isJsWs c = false := by
      intro c hc
      exact hch c (by rw [hd]; exact List.mem_cons_of_mem u hc)
    exact splitWsAux_cons_len (asciiUpper u) cs [] hcs

/-- A space-join headed by a nonempty word is nonempty. -/
theorem jsJoinSpace_cons_ne (w : String) (ws : List String) (hw : w ≠ "") :
    jsJoinSpace (w :: ws) ≠ "" := by
  cases ws with
  | nil => exact hw
  | cons w2 t =>
    intro he
    have he2 : w ++ " " ++ jsJoinSpace (w2 :: t) = "" := he
    have hdl := congrArg String.data he2
    rw [String.data_append, String.data_append] at hdl
    simp at hdl

/-- Every result of the word scan resplits into at most four words. -/
theorem scanWords_out (l : List String) :
    (∀ w ∈ l, w ≠ "" ∧ ∀ c ∈ w.data, isJsWs c = false) →
    ∀ r, scanWords l = some r → (splitWs r).length ≤ 4 := by
  induction l with
  | nil =>
    intro h r hr
    exact absurd hr (by simp [scanWords])
  | cons w rest ih =>
    intro h r hr
    have hw := h w (List.mem_cons_self w rest)
    have hrest : ∀ x ∈ rest, x ≠ "" ∧ ∀ c ∈ x.data, isJsWs c = false :=
      fun x hx => h x (List.mem_cons_of_mem w hx)
    unfold scanWords at hr
    dsimp only at hr
    by_cases h1 : techTerms.contains (strLower w) = true
    · rw [if_pos h1] at hr
      split_ifs at hr with h2
      · obtain ⟨hc2, hrne⟩ := h2
        cases rest with
        | nil => exact absurd rfl hrne
        | cons x t =>
          have hx := h x (List.mem_cons_of_mem w (List.mem_cons_self x t))
          have hrr : w ++ " " ++ x = r := by simpa using hr
          rw [← hrr]
          rw [show (w ++ " " ++ x) = jsJoinSpace [w, x] from rfl]
          rw [splitWs_join [w, x] ?memwx]
          · exact (by decide : (2:Nat) ≤ 4)
          case memwx =>
            intro y hy
            cases hy with
            | head => exact hw
            | tail _ hy2 =>
              cases hy2 with
              | head => exact hx
              | tail _ h3 => exact absurd h3 (List.not_mem_nil y)
      · have hrr : capitalizeFirst w = r := by simpa using hr
        rw [← hrr]
        exact le_trans (splitWs_capFirst w hw.2) (by decide)
    · rw [if_neg h1] at hr
      by_cases h3 : (capStart w = true ∧ 2 < w.length)
      · rw [if_pos h3] at hr
        split_ifs at hr with h4
        · obtain ⟨hc4, hrne⟩ := h4
          cases rest with
          | nil => exact absurd rfl hrne
          | cons x t =>
            have hx := h x (List.mem_cons_of_mem w (List.mem_cons_self x t))
            have hrr : w ++ " " ++ x = r := by simpa using hr
            rw [← hrr]
            rw [show (w ++ " " ++ x) = jsJoinSpace [w, x] from rfl]
            rw [splitWs_join [w, x] ?memwx2]
            · exact (by decide : (2:Nat) ≤ 4)
            case memwx2 =>
              intro y hy
              cases hy with
              | head => exact hw
              | tail _ hy2 =>
                cases hy2 with
                | head => exact hx
                | tail _ h5 => exact absurd h5 (List.not_mem_nil y)
        · cases rest with
          | nil =>
            have hrr : w = r := by simpa using hr
            rw [← hrr]
            rw [show w = jsJoinSpace [w] from rfl]
            rw [splitWs_join [w] ?memw1]
            · exact (by decide : (1:Nat) ≤ 4)
            case memw1 =>
              intro y hy
              cases hy with
              | head => exact hw
              | tail _ h5 => exact absurd h5 (List.not_mem_nil y)
          | cons x t =>
            have hx := h x (List.mem_cons_of_mem w (List.mem_cons_self x t))
            dsimp only at hr
            split_ifs at hr with h6
            · have hrr : w ++ " " ++ x = r := by simpa using hr
              rw [← hrr]
              rw [show (w ++ " " ++ x) = jsJoinSpace [w, x] from rfl]
              rw [splitWs_join [w, x] ?memwx3]
              · exact (by decide : (2:Nat) ≤ 4)
              case memwx3 =>
                intro y hy
                cases hy with
                | head => exact hw
                | tail _ hy2 =>
                  cases hy2 with
                  | head => exact hx
                  | tail _ h7 => exact absurd h7 (List.not_mem_nil y)
            · have hrr : w = r := by simpa using hr
              rw [← hrr]
              rw [show w = jsJoinSpace [w] from rfl]
              rw [splitWs_join [w] ?memw2]
              · exact (by decide : (1:Nat) ≤ 4)
              case memw2 =>
                intro y hy
                cases hy with
                | head => exact hw
                | tail _ h7 => exact absurd h7 (List.not_mem_nil y)
      · rw [if_neg h3] at hr
        exact ih hrest r hr

/-- Every output of the topic normaliser has at most four words. -/
theorem extract_word_count (q : String) :
    (splitWs (extractMainTopic q)).length ≤ 4 := by
  unfold extractMainTopic
  by_cases hq : q = ""
  · rw [if_pos hq]
    decide
  · rw [if_neg hq]
    dsimp only
    have hok : ∀ w ∈ splitWs (cleanQuery q),
        w ≠ "" ∧ ∀ c ∈ w.data, isJsWs c = false := by
      intro w hw
      exact splitWsAux_mem (cleanQuery q).data []
        (fun c hc => absurd hc (List.not_mem_nil c)) w hw
    by_cases hlen : (splitWs (cleanQuery q)).length ≤ 4
    · rw [if_pos hlen]
      exact hlen
    · rw [if_neg hlen]
      cases hscan : scanWords (splitWs (cleanQuery q)) with
      | some r => exact scanWords_out (splitWs (cleanQuery q)) hok r hscan
      | none =>
        dsimp only
        have hne2 : jsJoinSpace ((splitWs (cleanQuery q)).take 3) ≠ "" := by
          cases hsp : splitWs (cleanQuery q) with
          | nil =>
            rw [hsp] at hlen
            exact absurd (by decide) hlen
          | cons w t =>
            show jsJoinSpace (w :: t.take 2) ≠ ""
            apply jsJoinSpace_cons_ne
            exact (hok w (hsp ▸ List.mem_cons_self w t)).1
        rw [if_neg hne2,
          splitWs_join _ (fun x hx => hok x (List.mem_of_mem_take hx)),
          List.length_take]
        exact le_trans (min_le_left 3 _) (by decide)

/-- A fixed point of the cleaning stage with at most four words is a
fixed point of the whole normaliser. -/
theorem extract_fixed (t : String) (hc : cleanQuery t = t)
    (hlen : (splitWs t).length ≤ 4) : extractMainTopic t = t := by
  by_cases ht : t = ""
  · rw [ht]
    rfl
  · unfold extractMainTopic
    rw [if_neg ht]
    dsimp only
    rw [hc, if_pos hlen]

/-- C7 (amended).  The topic normaliser is idempotent on every query
whose extracted topic is itself clean, that is, whose extracted topic the
cleaning stage of lead-in stripping, question-mark stripping, trimming
and article stripping leaves unchanged; the counterexample shows the
unconditional statement fails when a second article survives the first
pass. -/
theorem c7_normalize_idempotent_on_clean (q : String)
    (h : cleanQuery (extractMainTopic q) = extractMainTopic q) :
    extractMainTopic (extractMainTopic q) = extractMainTopic q :=
  extract_fixed (extractMainTopic q) h (extract_word_count q)

/-- Closed instance of the C7 theorem at a clean two-word query. -/
theorem c7_normalize_idempotent_on_clean_witness :
    cleanQuery (extractMainTopic "Machine Learning") =
      extractMainTopic "Machine Learning" ∧
    extractMainTopic (extractMainTopic "Machine Learning") =
      extractMainTopic "Machine Learning" :=
  ⟨by decide, c7_normalize_idempotent_on_clean "Machine Learning" (by decide)⟩

/-- Lower-casing fixes every whitespace or whitelist character: none of
them lies in the upper-case letter range. -/
theorem asciiLower_fix (c : Char) (h : isJsWs c = true ∨ wlNoWs c = true) :
    asciiLower c = c := by
  unfold asciiLower
  cases hc : ('A' ≤ c && c ≤ 'Z') with
  | false => rw [if_neg Bool.false_ne_true]
  | true =>
    exfalso
    rw [Bool.and_eq_true, decide_eq_true_eq, decide_eq_true_eq] at hc
    obtain ⟨h1, h2⟩ := hc
    rcases h with hws | hwl
    · unfold isJsWs at hws
      simp only [Bool.or_eq_true, decide_eq_true_eq] at hws
      rcases hws with ((((h3|h3)|h3)|h3)|h3)|h3 <;> (subst h3; exact absurd h1 (by decide))
    · unfold wlNoWs at hwl
      cases hdg : c.isDigit with
      | true =>
        unfold Char.isDigit at hdg
        rw [Bool.and_eq_true, decide_eq_true_eq, decide_eq_true_eq] at hdg
        exact absurd (UInt32.le_trans (show ('A' : Char).val ≤ c.val from h1) hdg.2)
          (by decide)
      | false =>
        rw [hdg] at hwl
        simp only [Bool.false_or, Bool.or_eq_true, decide_eq_true_eq] at hwl
        rcases hwl with ((h4|h4)|h4)|h4
        · unfold isOpChar at h4
          simp only [Bool.or_eq_true, decide_eq_true_eq] at h4
          rcases h4 with ((h5|h5)|h5)|h5 <;> (subst h5; exact absurd h1 (by decide))
        · subst h4; exact absurd h1 (by decide)
        · subst h4; exact absurd h1 (by decide)
        · subst h4; exact absurd h1 (by decide)

/-- Trimming keeps a subset of the characters. -/
theorem jsTrim_subset (s : String) : ∀ c ∈ (jsTrim s).data, c ∈ s.data := by
  intro c hc
  have hc2 : c ∈ ((s.data.dropWhile isJsWs).reverse.dropWhile isJsWs).reverse := hc
  rw [List.mem_reverse] at hc2
  have hc4 : c ∈ (s.data.dropWhile isJsWs).reverse :=
    ((List.dropWhile_suffix isJsWs).sublist.subset) hc2
  rw [List.mem_reverse] at hc4
  exact ((List.dropWhile_suffix isJsWs).sublist.subset) hc4

/-- Lower-casing fixes a string of whitespace and whitelist characters. -/
theorem strLower_fix (s : String) (h : ∀ c ∈ s.data, isJsWs c = true ∨ wlNoWs c = true) :
    strLower s = s := by
  unfold strLower
  have hm : s.data.map asciiLower = s.data := by
    conv_rhs => rw [← List.map_id s.data]
    exact List.map_congr_left fun c hc => asciiLower_fix c (h c hc)
  rw [hm]

/-- A prefix beginning with a letter cannot match case-insensitively at
the start of a whitespace-and-whitelist string. -/
theorem ciAt_head_false (c0 : Char) (ps hay : List Char)
    (hh : ∀ c ∈ hay, isJsWs c = true ∨ wlNoWs c = true)
    (h0ws : isJsWs c0 = false) (h0wl : wlNoWs c0 = false)
    (h0fix : asciiLower c0 = c0) :
    ciAt (c0 :: ps) hay = false := by
  cases hay with
  | nil =>
    unfold ciAt
    apply decide_eq_false
    intro hpre
    rw [List.map_cons, List.map_nil] at hpre
    exact absurd (List.prefix_nil.mp hpre) (by simp)
  | cons h1 hs =>
    unfold ciAt
    apply decide_eq_false
    intro hpre
    rw [List.map_cons, List.map_cons] at hpre
    obtain ⟨heq, _⟩ := List.cons_prefix_cons.mp hpre
    have hfix1 := asciiLower_fix h1 (hh h1 (List.mem_cons_self h1 hs))
    rw [h0fix, hfix1] at heq
    rcases hh h1 (List.mem_cons_self h1 hs) with hws | hwl
    · rw [← heq, h0ws] at hws
      exact Bool.false_ne_true hws
    · rw [← heq, h0wl] at hwl
      exact Bool.false_ne_true hwl

/-- Dropping a leading run of q-characters does not change the
q-complement filter. -/
theorem filter_not_dropWhile (q : Char → Bool) (l : List Char) :
    (l.dropWhile q).filter (fun c => !q c) = l.filter (fun c => !q c) := by
  induction l with
  | nil => rfl
  | cons a as ih =>
    rw [List.dropWhile_cons]
    split_ifs with hqa
    · rw [List.filter_cons_of_neg (by simp [hqa])]
      exact ih
    · rfl

/-- Trimming does not change the non-whitespace characters. -/
theorem jsTrim_filter (s : String) :
    (jsTrim s).data.filter (fun c => !isJsWs c) =
      s.data.filter (fun c => !isJsWs c) := by
  show (((s.data.dropWhile isJsWs).reverse.dropWhile isJsWs).reverse).filter
      (fun c => !isJsWs c) = s.data.filter (fun c => !isJsWs c)
  rw [List.filter_reverse, filter_not_dropWhile, List.filter_reverse,
    List.reverse_reverse, filter_not_dropWhile]

/-- Whitespace and whitelist characters both lie in the whitelist class
that admits whitespace. -/
theorem wlWithWs_of (c : Char) (h : isJsWs c = true ∨ wlNoWs c = true) :
    wlWithWs c = true := by
  unfold wlWithWs
  rcases h with h | h
  · rw [h]
    simp
  · unfold wlNoWs at h
    rw [h, Bool.true_or]

/-- C8 (counterexample).  The classifier the orchestrator actually
imports, isMathExpression of mathService.js, violates the claimed iff:
it accepts a textual-operator phrase and a lead-in question although
neither matches the anchored whitelist pattern after whitespace
removal. -/
theorem c8_counterexample :
    checkMathExpression "2 plus 2" = true ∧
    isArithmeticExpressionSpec "2 plus 2" = false ∧
    checkMathExpression "what is 2+2" = true ∧
    isArithmeticExpressionSpec "what is 2+2" = false := by
  decide

/-- C8 (amended).  The live classifier imported by the orchestrator
accepts every text that, after removing whitespace, matches the
whitelist pattern with at least one operator and at least one digit; in
particular it accepts 2 + 5 and rejects the question about Python.  The
converse fails, as the counterexample records. -/
theorem c8_live_classifier_superset :
    (∀ t, isArithmeticExpressionSpec t = true → checkMathExpression t = true) ∧
    checkMathExpression "2 + 5" = true ∧
    checkMathExpression "What is Python?" = false := by
  refine ⟨?_, by decide, by decide⟩
  intro t h
  unfold isArithmeticExpressionSpec at h
  dsimp only at h
  simp only [Bool.and_eq_true, decide_eq_true_eq] at h
  obtain ⟨⟨⟨hne, hall⟩, hop⟩, hdig⟩ := h
  have hchars : ∀ c ∈ t.data, isJsWs c = true ∨ wlNoWs c = true := by
    intro c hc
    cases hw : isJsWs c with
    | true => exact Or.inl rfl
    | false =>
      right
      have hmem : c ∈ (removeWs t).data := by
        show c ∈ t.data.filter (fun c => !isJsWs c)
        exact List.mem_filter.mpr ⟨hc, by rw [hw]; rfl⟩
      exact List.all_eq_true.mp hall c hmem
  have hne2 : t ≠ "" := by
    intro ht
    apply hne
    rw [ht]
    rfl
  have htrimchars : ∀ c ∈ (jsTrim t).data, isJsWs c = true ∨ wlNoWs c = true :=
    fun c hc => hchars c (jsTrim_subset t c hc)
  have hlow : strLower (jsTrim t) = jsTrim t := strLower_fix (jsTrim t) htrimchars
  have hci1 : ciAt ("what is").data (jsTrim t).data = false :=
    ciAt_head_false 'w' "hat is".data ((jsTrim t).data) htrimchars
      (by decide) (by decide) (by decide)
  have hci2 : ciAt ("solve").data (jsTrim t).data = false :=
    ciAt_head_false 's' "olve".data ((jsTrim t).data) htrimchars
      (by decide) (by decide) (by decide)
  have hci3 : ciAt ("calculate").data (jsTrim t).data = false :=
    ciAt_head_false 'c' "alculate".data ((jsTrim t).data) htrimchars
      (by decide) (by decide) (by decide)
  have hci4 : ciAt ("evaluate").data (jsTrim t).data = false :=
    ciAt_head_false 'e' "valuate".data ((jsTrim t).data) htrimchars
      (by decide) (by decide) (by decide)
  have hci5 : ciAt ("find").data (jsTrim t).data = false :=
    ciAt_head_false 'f' "ind".data ((jsTrim t).data) htrimchars
      (by decide) (by decide) (by decide)
  have hci6 : ciAt ("compute").data (jsTrim t).data = false :=
    ciAt_head_false 'c' "ompute".data ((jsTrim t).data) htrimchars
      (by decide) (by decide) (by decide)
  have hstrip : stripAltsLead
      ["what is", "solve", "calculate", "evaluate", "find", "compute"]
      (jsTrim t) = jsTrim t := by
    unfold stripAltsLead
    simp only [List.findSome?_cons, hci1, hci2, hci3, hci4, hci5, hci6,
      Bool.false_eq_true, if_false, List.findSome?_nil]
  have hqm : (jsTrim t).data.filter (fun c => c ≠ '?') = (jsTrim t).data := by
    rw [List.filter_eq_self]
    intro a ha
    rcases htrimchars a ha with hws | hwl
    · refine decide_eq_true ?_
      intro he
      subst he
      exact absurd hws (by decide)
    · refine decide_eq_true ?_
      intro he
      subst he
      exact absurd hwl (by decide)
  have hfe : (jsTrim (jsTrim t)).data.filter (fun c => !isJsWs c) =
      t.data.filter (fun c => !isJsWs c) := by
    rw [jsTrim_filter (jsTrim t), jsTrim_filter t]
  have g1 : (jsTrim (jsTrim t)).data.any Char.isDigit = true := by
    rw [List.any_eq_true] at hdig ⊢
    obtain ⟨c, hcmem, hcp⟩ := hdig
    have hcmem2 : c ∈ (jsTrim (jsTrim t)).data.filter (fun c => !isJsWs c) := by
      rw [hfe]
      exact hcmem
    exact ⟨c, List.mem_of_mem_filter hcmem2, hcp⟩
  have g2 : (jsTrim (jsTrim t)).data.any isOpChar = true := by
    rw [List.any_eq_true] at hop ⊢
    obtain ⟨c, hcmem, hcp⟩ := hop
    have hcmem2 : c ∈ (jsTrim (jsTrim t)).data.filter (fun c => !isJsWs c) := by
      rw [hfe]
      exact hcmem
    exact ⟨c, List.mem_of_mem_filter hcmem2, hcp⟩
  have g3 : jsTrim (jsTrim t) ≠ "" := by
    intro he
    rw [he] at g1
    exact absurd g1 (by decide)
  have g4 : (jsTrim (jsTrim t)).data.all wlWithWs = true := by
    rw [List.all_eq_true]
    intro c hc
    exact wlWithWs_of c
      (hchars c (jsTrim_subset t c (jsTrim_subset (jsTrim t) c hc)))
  unfold checkMathExpression
  rw [if_neg hne2]
  dsimp only
  rw [hlow, hstrip, hqm,
    show (⟨(jsTrim t).data⟩ : String) = jsTrim t from rfl,
    g1, g2, g4, decide_eq_true g3]
  rfl

/-- Closed instance of the C8 theorem at an arithmetic text with an
interior space. -/
theorem c8_live_classifier_superset_witness :
    isArithmeticExpressionSpec "2+5" = true ∧
    checkMathExpression "2+5" = true :=
  ⟨by decide, c8_live_classifier_superset.1 "2+5" (by decide)⟩

end StudyAssistant
